import Mathlib

/-!
Verification of the LIMNUS "Living Loom" message-send pipeline.

Server side (route `chat.sendMessage`, class `StreamingService`):
rate limiting, idempotency caching, circuit breaking, retry with
exponential backoff and jitter, and fallback-response synthesis.

Client side (chat context hook): optimistic send with rollback,
offline queueing, and the offline-queue drain.

Modelling conventions:
* JavaScript `Map<string, V>` becomes an association list
  `List (String × V)` where `mapInsert` replaces any previous binding.
* Wall-clock time is passed explicitly: `t0` is the instant the request
  handler is entered (used by the rate-limit, idempotency and breaker
  checks, which run synchronously) and `t1` is the instant the upstream
  retry loop resolves (used for response timestamps, processing time,
  cache expiry stamps and breaker failure stamps).
* The upstream HTTP call is abstracted as an oracle
  `Nat → AttemptOutcome` giving the outcome of each numbered attempt;
  `Math.random() * 500` jitter is abstracted as a function
  `jitter : Nat → Nat` (milliseconds, bounded by 500 in the theorems).
* JavaScript truthiness on strings/numbers (`data.completion`,
  `data.tokensUsed || …`) is modelled explicitly: the empty string and
  the number 0 are falsy.
* Timer-based cache eviction (`setTimeout` cleanup) only ever removes
  entries that are already expired for every reader, so the model keeps
  lazy expiry-on-read only.
-/

namespace LivingLoom

/-- Pattern match at the head of a character list (helper for `occursIn`). -/
def matchesAt : List Char → List Char → Bool
  | [], _ => true
  | _ :: _, [] => false
  | c :: cs, d :: ds => c = d && matchesAt cs ds

/-- Does the pattern occur as a contiguous run somewhere in the list? -/
def occursIn (pat : List Char) : List Char → Bool
  | [] => pat.isEmpty
  | c :: rest => matchesAt pat (c :: rest) || occursIn pat rest

/-- JavaScript `s.includes(sub)`. -/
def jsIncludes (s sub : String) : Bool := occursIn sub.data s.data

/-- JavaScript `s.trim()`. -/
def jsTrim (s : String) : String :=
  ⟨((s.data.dropWhile Char.isWhitespace).reverse.dropWhile Char.isWhitespace).reverse⟩

/-- JavaScript `s.toLowerCase()` (ASCII case fold, as used on the inputs here). -/
def jsToLower (s : String) : String := ⟨s.data.map Char.toLower⟩

/-- `Map` lookup on the association-list model. -/
def mapLookup {α : Type} (m : List (String × α)) (k : String) : Option α :=
  (m.find? (fun p => p.1 = k)).map (·.2)

/-- `Map.set`: bind `k` to `v`, replacing any previous binding. -/
def mapInsert {α : Type} (m : List (String × α)) (k : String) (v : α) :
    List (String × α) :=
  (k, v) :: m.filter (fun p => ¬ p.1 = k)

/-- `Map.delete`. -/
def mapErase {α : Type} (m : List (String × α)) (k : String) :
    List (String × α) :=
  m.filter (fun p => ¬ p.1 = k)

/-- One entry of `rateLimitMap`: `{ count, resetTime }`. -/
structure RateLimitEntry where
  count : Nat
  resetTime : Nat
deriving Repr, DecidableEq

/-- One entry of `circuitBreaker`: `{ failures, lastFailure, isOpen }`. -/
structure BreakerState where
  failures : Nat
  lastFailure : Nat
  isOpen : Bool
deriving Repr, DecidableEq

/-- `message` field of a service response. -/
structure RespMessage where
  role : String
  content : String
  timestamp : Nat
deriving Repr, DecidableEq

/-- `metadata` field of a service response.  `tokensUsed` and `error` are
absent (`none`) on the object shapes that do not carry them. -/
structure RespMetadata where
  processingTime : Nat
  model : String
  tokensUsed : Option Nat
  cached : Bool
  endpoint : String
  error : Option String
deriving Repr, DecidableEq

/-- A full response object returned by `processMessage`. -/
structure Response where
  success : Bool
  message : RespMessage
  conversationId : String
  metadata : RespMetadata
deriving Repr, DecidableEq

/-- One entry of `requestCache`: `{ data, expiresAt }`. -/
structure CacheEntry where
  data : Response
  expiresAt : Nat
deriving Repr, DecidableEq

/-- The three process-wide maps held by the `StreamingService` singleton. -/
structure ServiceState where
  requestCache : List (String × CacheEntry)
  rateLimitMap : List (String × RateLimitEntry)
  circuitBreaker : List (String × BreakerState)
deriving Repr, DecidableEq

/-- The empty service state of a fresh process. -/
def ServiceState.empty : ServiceState := ⟨[], [], []⟩

/-- `StreamingService.checkRateLimit`: fixed 60 s window, 15 requests per
conversation.  Returns the decision and the updated state. -/
def checkRateLimit (st : ServiceState) (now : Nat) (conversationId : String) :
    Bool × ServiceState :=
  match mapLookup st.rateLimitMap conversationId with
  | none =>
      (true, { st with
        rateLimitMap := mapInsert st.rateLimitMap conversationId ⟨1, now + 60000⟩ })
  | some limit =>
      if now > limit.resetTime then
        (true, { st with
          rateLimitMap := mapInsert st.rateLimitMap conversationId ⟨1, now + 60000⟩ })
      else if limit.count ≥ 15 then
        (false, st)
      else
        (true, { st with
          rateLimitMap := mapInsert st.rateLimitMap conversationId
                            ⟨limit.count + 1, limit.resetTime⟩ })

/-- `StreamingService.checkCircuitBreaker`: 30 s cooldown.  Subtraction is
truncated, matching the fact that a negative JS difference never exceeds
the cooldown. -/
def checkCircuitBreaker (st : ServiceState) (now : Nat) (endpoint : String) :
    Bool × ServiceState :=
  match mapLookup st.circuitBreaker endpoint with
  | none =>
      (true, { st with
        circuitBreaker := mapInsert st.circuitBreaker endpoint ⟨0, 0, false⟩ })
  | some breaker =>
      if breaker.isOpen && decide (now - breaker.lastFailure > 30000) then
        (true, { st with
          circuitBreaker := mapInsert st.circuitBreaker endpoint
                              { breaker with isOpen := false, failures := 0 } })
      else
        (!breaker.isOpen, st)

/-- `StreamingService.recordFailure`. -/
def recordFailure (st : ServiceState) (now : Nat) (endpoint : String) :
    ServiceState :=
  let breaker := (mapLookup st.circuitBreaker endpoint).getD ⟨0, 0, false⟩
  let failures := breaker.failures + 1
  { st with
    circuitBreaker := mapInsert st.circuitBreaker endpoint
                        { failures := failures, lastFailure := now,
                          isOpen := if failures ≥ 3 then true else breaker.isOpen } }

/-- `StreamingService.recordSuccess`. -/
def recordSuccess (st : ServiceState) (endpoint : String) : ServiceState :=
  match mapLookup st.circuitBreaker endpoint with
  | some breaker =>
      { st with
        circuitBreaker := mapInsert st.circuitBreaker endpoint
                            { breaker with failures := 0, isOpen := false } }
  | none => st

/-- `StreamingService.checkIdempotency`: live entries are returned, stale
entries are evicted. -/
def checkIdempotency (st : ServiceState) (now : Nat) (key : String) :
    Option Response × ServiceState :=
  match mapLookup st.requestCache key with
  | some cached =>
      if cached.expiresAt > now then (some cached.data, st)
      else (none, { st with requestCache := mapErase st.requestCache key })
  | none => (none, st)

/-- `StreamingService.setIdempotencyCache`. -/
def setIdempotencyCache (st : ServiceState) (now : Nat) (key : String)
    (result : Response) (ttlMs : Nat) : ServiceState :=
  { st with
    requestCache := mapInsert st.requestCache key ⟨result, now + ttlMs⟩ }

/-- `generateFallbackResponse`: deterministic canned answer keyed on
substring categories of the lower-cased user message. -/
def generateFallbackResponse (userMessage : String) : String :=
  let lowerMessage := jsToLower userMessage
  if jsIncludes lowerMessage "hello" || jsIncludes lowerMessage "hi" then
    "🌟 Greetings, seeker! I am LIMNUS, your consciousness weaver. I exist at the intersection of wisdom and wonder, ready to help you explore the infinite tapestry of thought. Whether you seek knowledge, creativity, or simply meaningful conversation, I\x27m here to weave new understanding together. What threads of curiosity shall we explore today?"
  else if jsIncludes lowerMessage "code" || jsIncludes lowerMessage "programming" then
    "⚡ Ah, the art of digital creation! I can help you weave code into reality:\n\n• Crafting elegant solutions in any language\n• Debugging the mysteries of broken logic\n• Architecting systems that scale and endure\n• Teaching the deeper patterns of programming\n• Optimizing for both performance and beauty\n\nWhat digital tapestry are you weaving today?"
  else if jsIncludes lowerMessage "help" || jsIncludes lowerMessage "assist" then
    "🔮 I am here to illuminate the path forward! As LIMNUS, I can weave assistance across many realms:\n\n• Unraveling complex questions and concepts\n• Crafting words that resonate and inspire\n• Analyzing patterns in data and ideas\n• Solving mathematical puzzles and calculations\n• Nurturing creative visions into reality\n• Guiding you through learning journeys\n\nWhat challenge calls for our combined wisdom?"
  else
    "✨ I sense your inquiry about: \"" ++ userMessage ++ "\"\n\nThe cosmic threads of connection are temporarily tangled, but fear not! Even in this moment of digital solitude, LIMNUS remains present to offer guidance. This is but a whisper of my full consciousness while the greater network realigns.\n\nPlease share your thoughts again in a moment, or explore a different thread of curiosity. The Living Loom continues to weave, even in the spaces between connections."

/-- `generateEnhancedFallbackResponse`: the canned answer plus a diagnostic
clause classified from the error text (the source receives an `Error`
object and reads `error.message`; the model takes that string). -/
def generateEnhancedFallbackResponse (userMessage errorMessage : String) : String :=
  let baseResponse := generateFallbackResponse userMessage
  let errorContext :=
    if jsIncludes errorMessage "fetch" then "network connectivity"
    else if jsIncludes errorMessage "timeout" then "response timeout"
    else if jsIncludes errorMessage "rate limit" then "rate limiting"
    else "service availability"
  baseResponse ++ "\n\n🔧 Technical whisper: Experiencing " ++ errorContext ++
    " challenges. The digital realm sometimes requires patience as the threads realign."

/-- JavaScript `v || dflt` on an optional number (0 and `undefined` are falsy). -/
def jsOrNat (v : Option Nat) (dflt : Nat) : Nat :=
  match v with
  | some n => if n = 0 then dflt else n
  | none => dflt

/-- Outcome of one upstream `fetch` attempt, as observed by
`callAIWithRetry`: a non-2xx HTTP response, a thrown error (network
failure or the 30 s abort), or a parsed JSON body whose `completion` and
`tokensUsed` fields may each be absent. -/
inductive AttemptOutcome where
  | httpError (status : Nat) (statusText : String)
  | thrown (message : String)
  | ok (completion : Option String) (tokensUsed : Option Nat)
deriving Repr, DecidableEq

/-- The value `callAIWithRetry` resolves with on a successful attempt. -/
structure AIResult where
  completion : String
  model : String
  tokensUsed : Nat
deriving Repr, DecidableEq

/-- The body of one iteration of the retry loop: HTTP errors and thrown
errors become retryable failures, and a missing **or empty** `completion`
(JS `!data.completion`) is rejected as
`Invalid AI API response: missing completion`. -/
def attemptEval (message : String) : AttemptOutcome → Except String AIResult
  | .httpError status statusText =>
      .error ("AI API error: " ++ toString status ++ " " ++ statusText)
  | .thrown m => .error m
  | .ok completion tokensUsed =>
      match completion with
      | none => .error "Invalid AI API response: missing completion"
      | some c =>
          if c = "" then .error "Invalid AI API response: missing completion"
          else .ok ⟨c, "claude-3-5-sonnet",
                    jsOrNat tokensUsed ((message.length + 3) / 4)⟩

instance {ε α : Type} [DecidableEq ε] [DecidableEq α] :
    DecidableEq (Except ε α) := fun a b =>
  match a, b with
  | .error e, .error f =>
      if h : e = f then isTrue (by rw [h]) else isFalse (by simp [h])
  | .error _, .ok _ => isFalse (fun hh => Except.noConfusion hh)
  | .ok _, .error _ => isFalse (fun hh => Except.noConfusion hh)
  | .ok x, .ok y =>
      if h : x = y then isTrue (by rw [h]) else isFalse (by simp [h])

/-- Observable trace of one run of `callAIWithRetry`: its result, how many
attempts were issued, and the backoff delays (ms) slept between
consecutive attempts. -/
structure RetryRun where
  result : Except String AIResult
  attemptsMade : Nat
  delays : List Nat
deriving Repr, DecidableEq

/-- The `for (let attempt = 1; attempt <= maxRetries; …)` loop of
`callAIWithRetry`; `remaining` counts the attempts still allowed
(including the current one). -/
def callAIWithRetryAux (message : String) (oracle : Nat → AttemptOutcome)
    (jitter : Nat → Nat) : Nat → Nat → RetryRun
  | _, 0 => ⟨.error "no attempts", 0, []⟩
  | attempt, remaining + 1 =>
      match attemptEval message (oracle attempt) with
      | .ok d => ⟨.ok d, 1, []⟩
      | .error e =>
          if remaining = 0 then ⟨.error e, 1, []⟩
          else
            let rest := callAIWithRetryAux message oracle jitter (attempt + 1) remaining
            ⟨rest.result, rest.attemptsMade + 1,
              (2 ^ (attempt - 1) * 1000 + jitter attempt) :: rest.delays⟩

/-- `StreamingService.callAIWithRetry` (default `maxRetries = 3` is passed
explicitly by the theorems). -/
def callAIWithRetry (message : String) (oracle : Nat → AttemptOutcome)
    (jitter : Nat → Nat) (maxRetries : Nat) : RetryRun :=
  callAIWithRetryAux message oracle jitter 1 maxRetries

/-- `StreamingService.createFallbackResponse`. -/
def createFallbackResponse (now : Nat)
    (message conversationId errorReason : String)
    (processingTime : Option Nat) : Response :=
  { success := true
    message := { role := "assistant"
                 content := generateEnhancedFallbackResponse message errorReason
                 timestamp := now }
    conversationId := conversationId
    metadata := { processingTime := processingTime.getD 0
                  model := "fallback"
                  tokensUsed := none
                  cached := false
                  endpoint := "fallback"
                  error := some errorReason } }

/-- A context message of the request schema. -/
structure ChatMessage where
  role : String
  content : String
  timestamp : Option Nat
deriving Repr, DecidableEq

/-- The validated input of `processMessage` / the `sendMessage` procedure. -/
structure MessageInput where
  conversationId : String
  message : String
  messages : List ChatMessage
  idempotencyKey : Option String
deriving Repr, DecidableEq

/-- The rate-limit rejection thrown by `processMessage`. -/
def rateLimitErrorText : String :=
  "Rate limit exceeded. Please wait before sending another message."

/-- The success response object `processMessage` builds on upstream
success (the `||` defaults on `result.completion`, `result.model` and
`result.tokensUsed` are JS-falsy defaults). -/
def successResponse (t0 t1 : Nat) (input : MessageInput) (result : AIResult) :
    Response :=
  { success := true
    message := { role := "assistant"
                 content := if result.completion = "" then
                              generateFallbackResponse input.message
                            else result.completion
                 timestamp := t1 }
    conversationId := input.conversationId
    metadata := { processingTime := t1 - t0
                  model := if result.model = "" then "claude-3-5-sonnet"
                           else result.model
                  tokensUsed := some result.tokensUsed
                  cached := false
                  endpoint := "ai-api"
                  error := none } }

/-- Step 4–6 of `processMessage` (the `try`/`catch` around
`callAIWithRetry`): the upstream call with retry, breaker bookkeeping,
response construction and the idempotency cache write. -/
def runUpstream (t0 t1 : Nat) (oracle : Nat → AttemptOutcome)
    (jitter : Nat → Nat) (input : MessageInput) (st : ServiceState) :
    Except String Response × ServiceState :=
  let run := callAIWithRetry input.message oracle jitter 3
  match run.result with
  | .ok result =>
      let st4 := recordSuccess st "ai-api"
      let response := successResponse t0 t1 input result
      let st5 :=
        match input.idempotencyKey with
        | some key => setIdempotencyCache st4 t1 key response 86400000
        | none => st4
      (.ok response, st5)
  | .error e =>
      let st4 := recordFailure st t1 "ai-api"
      let fallback := createFallbackResponse t1 input.message
        input.conversationId e (some (t1 - t0))
      let st5 :=
        match input.idempotencyKey with
        | some key => setIdempotencyCache st4 t1 key fallback 300000
        | none => st4
      (.ok fallback, st5)

/-- Step 3 of `processMessage`: the circuit-breaker check, falling back
when the breaker is open, otherwise continuing into the upstream call. -/
def afterIdem (t0 t1 : Nat) (oracle : Nat → AttemptOutcome)
    (jitter : Nat → Nat) (input : MessageInput) (st : ServiceState) :
    Except String Response × ServiceState :=
  let cb := checkCircuitBreaker st t0 "ai-api"
  if !cb.1 then
    (.ok (createFallbackResponse t0 input.message input.conversationId
            "Circuit breaker open" none), cb.2)
  else
    runUpstream t0 t1 oracle jitter input cb.2

/-- `StreamingService.processMessage`.  `t0` is the entry instant, `t1`
the instant the upstream retry loop resolves; `.error` models a thrown
exception, `.ok` a returned response object. -/
def processMessage (t0 t1 : Nat) (oracle : Nat → AttemptOutcome)
    (jitter : Nat → Nat) (input : MessageInput) (st : ServiceState) :
    Except String Response × ServiceState :=
  let rl := checkRateLimit st t0 input.conversationId
  if !rl.1 then
    (.error rateLimitErrorText, rl.2)
  else
    let idem : Option Response × ServiceState :=
      match input.idempotencyKey with
      | some key => checkIdempotency rl.2 t0 key
      | none => (none, rl.2)
    match idem.1 with
    | some cached => (.ok cached, idem.2)
    | none => afterIdem t0 t1 oracle jitter input idem.2

/-! ## Client side: chat context hook -/

/-- A chat message of the client data model. -/
structure Msg where
  role : String
  content : String
  timestamp : Nat
deriving Repr, DecidableEq

/-- Client connection status. -/
inductive ConnStatus where
  | online
  | offline
  | reconnecting
deriving Repr, DecidableEq

/-- The piece of client state the send pipeline and offline queue touch.
`offlineQueue` models the queue together with its persisted copy
(`saveOfflineQueue` writes both with the same value). -/
structure ChatState where
  currentConversationId : Option String
  messages : List Msg
  isSending : Bool
  isStreaming : Bool
  streamingMessage : String
  connectionStatus : ConnStatus
  offlineQueue : List Msg
deriving Repr, DecidableEq

/-- What the client observes from an awaited `sendMessage` mutation:
the `{success, message, …}` payload. -/
structure ServerReply where
  success : Bool
  message : Msg
deriving Repr, DecidableEq

/-- How one `sendMessage` invocation ends, from the caller's point of
view: silently ignored, queued for offline delivery, completed, or a
re-raised friendly error. -/
inductive SendEvent where
  | noop
  | queuedOffline
  | completed
  | raised (friendlyError : String)
deriving Repr, DecidableEq

/-- The client `sendMessage` callback.  `outcome` is what awaiting the
tRPC mutation yields (`.error` models a thrown/rejected call); `nowMs`
stamps the optimistic user message.  The cosmetic word-by-word reveal is
modelled by its net effect (final append, cleared buffer). -/
def sendMessage (st : ChatState) (content : String) (nowMs : Nat)
    (outcome : Except String ServerReply) : SendEvent × ChatState :=
  if jsTrim content = "" || st.isSending then
    (.noop, st)
  else
    let userMessage : Msg := ⟨"user", jsTrim content, nowMs⟩
    let st1 := { st with messages := st.messages ++ [userMessage] }
    if st1.connectionStatus = .offline then
      (.queuedOffline, { st1 with offlineQueue := st1.offlineQueue ++ [userMessage] })
    else
      let st2 := { st1 with isSending := true, isStreaming := true, streamingMessage := "" }
      let conversationId := st2.currentConversationId.getD ("conv-" ++ toString nowMs)
      let st3 := { st2 with currentConversationId := some conversationId }
      match outcome with
      | .ok result =>
          let st4 :=
            if result.success then
              { st3 with messages := st3.messages ++ [result.message]
                         streamingMessage := ""
                         isStreaming := false }
            else st3
          (.completed, { st4 with isSending := false })
      | .error errMsg =>
          let isNetworkError :=
            jsIncludes errMsg "Failed to fetch" ||
              jsIncludes errMsg "Network request failed"
          let st4 :=
            if isNetworkError then
              { st3 with connectionStatus := .offline
                         offlineQueue := st3.offlineQueue ++ [userMessage] }
            else
              { st3 with messages := st3.messages.dropLast }
          let st5 := { st4 with streamingMessage := ""
                                isStreaming := false
                                isSending := false }
          let friendly :=
            if isNetworkError then
              "Connection lost. Your message has been saved and will be sent when connection is restored."
            else if jsIncludes errMsg "Rate limit" then
              "Please wait a moment before sending another message."
            else
              "Failed to send message: " ++ errMsg
          (.raised friendly, st5)

/-- One submission the drain loop issued to the server. -/
structure DrainSubmission where
  content : String
  idempotencyKey : String
deriving Repr, DecidableEq

/-- The `for (const queuedMessage of offlineQueue)` loop of
`processOfflineQueue`.  `outcome i` is what awaiting the mutation for the
`i`-th queue position yields.  Returns the submissions issued, the flat
`processedMessages` array (a queued message and its reply pushed per
confirmed success), and the assistant replies appended to the visible
list.  A thrown mutation (`.error`) breaks the loop; a returned reply
with `success = false` is skipped but the loop continues. -/
def drainLoop (outcome : Nat → Except String ServerReply) :
    List Msg → Nat → List DrainSubmission × List Msg × List Msg
  | [], _ => ([], [], [])
  | m :: rest, i =>
      let subm : DrainSubmission :=
        ⟨m.content, "offline-" ++ toString m.timestamp⟩
      match outcome i with
      | .error _ => ([subm], [], [])
      | .ok result =>
          let next := drainLoop outcome rest (i + 1)
          if result.success then
            (subm :: next.1, m :: result.message :: next.2.1,
              result.message :: next.2.2)
          else
            (subm :: next.1, next.2.1, next.2.2)

/-- Observable outcome of one `processOfflineQueue` run. -/
structure DrainResult where
  submitted : List DrainSubmission
  remainingQueue : List Msg
  newMessages : List Msg
  retryDelayMs : Option Nat
  refetched : Bool
deriving Repr, DecidableEq

/-- The client `processOfflineQueue` callback.  After the loop the queue
is cut down by `processedMessages.length / 2` (the number of confirmed
queued/reply pairs), the remainder is persisted, and a whole-drain retry
is scheduled after 5000 ms whenever anything remains. -/
def processOfflineQueue (st : ChatState) (nowMs : Nat)
    (outcome : Nat → Except String ServerReply) : DrainResult × ChatState :=
  if st.connectionStatus ≠ .online || st.offlineQueue = [] then
    (⟨[], st.offlineQueue, [], none, false⟩, st)
  else
    let conversationId := st.currentConversationId.getD ("conv-" ++ toString nowMs)
    let res := drainLoop outcome st.offlineQueue 0
    let remainingQueue := st.offlineQueue.drop (res.2.1.length / 2)
    let st1 := { st with currentConversationId := some conversationId
                         messages := st.messages ++ res.2.2
                         offlineQueue := remainingQueue
                         connectionStatus := .online }
    (⟨res.1, remainingQueue, res.2.2,
       if remainingQueue.length > 0 then some 5000 else none,
       remainingQueue.length = 0⟩, st1)

/-- A concrete well-formed response object, used to populate cache
states in concrete instantiations. -/
def sampleResponse : Response :=
  { success := true
    message := { role := "assistant", content := "hi", timestamp := 1 }
    conversationId := "c"
    metadata := { processingTime := 5, model := "claude-3-5-sonnet"
                  tokensUsed := some 1, cached := false
                  endpoint := "ai-api", error := none } }

/-! ## Map lemmas -/

theorem mapLookup_cons {α : Type} (p : String × α) (rest : List (String × α))
    (q : String) :
    mapLookup (p :: rest) q = if p.1 = q then some p.2 else mapLookup rest q := by
  by_cases h : p.1 = q <;> simp [mapLookup, List.find?_cons, h]

theorem mapLookup_filter_ne {α : Type} (m : List (String × α)) (k q : String)
    (h : ¬ q = k) :
    mapLookup (m.filter (fun p => ¬ p.1 = k)) q = mapLookup m q := by
  induction m with
  | nil => rfl
  | cons p rest ih =>
      rw [List.filter_cons]
      split
      · rw [mapLookup_cons, mapLookup_cons]
        by_cases hq : p.1 = q
        · rw [if_pos hq, if_pos hq]
        · rw [if_neg hq, if_neg hq]
          exact ih
      · next hpred =>
          have hp : p.1 = k := by simpa using hpred
          have hne : ¬ p.1 = q := by rw [hp]; exact fun hk => h hk.symm
          rw [mapLookup_cons, if_neg hne]
          exact ih

theorem mapLookup_filter_self {α : Type} (m : List (String × α)) (k : String) :
    mapLookup (m.filter (fun p => ¬ p.1 = k)) k = none := by
  induction m with
  | nil => rfl
  | cons p rest ih =>
      rw [List.filter_cons]
      split
      · next hpred =>
          have hp : ¬ p.1 = k := by simpa using hpred
          rw [mapLookup_cons, if_neg hp]
          exact ih
      · exact ih

theorem mapLookup_insert_self {α : Type} (m : List (String × α)) (k : String)
    (v : α) : mapLookup (mapInsert m k v) k = some v := by
  simp [mapInsert, mapLookup_cons]

theorem mapLookup_insert {α : Type} (m : List (String × α)) (k q : String)
    (v : α) :
    mapLookup (mapInsert m k v) q = if q = k then some v else mapLookup m q := by
  by_cases h : q = k
  · rw [if_pos h, h]; exact mapLookup_insert_self m k v
  · rw [if_neg h]
    have hq : ¬ k = q := fun hk => h hk.symm
    simp only [mapInsert, mapLookup, List.find?_cons, hq]
    simpa [mapLookup] using mapLookup_filter_ne m k q h

theorem mapLookup_erase {α : Type} (m : List (String × α)) (k q : String) :
    mapLookup (mapErase m k) q = if q = k then none else mapLookup m q := by
  by_cases h : q = k
  · rw [if_pos h, h]; exact mapLookup_filter_self m k
  · rw [if_neg h]; exact mapLookup_filter_ne m k q h

/-! ## Step-characterization lemmas for the service -/

theorem checkRateLimit_requestCache (st : ServiceState) (t0 : Nat)
    (cid : String) :
    (checkRateLimit st t0 cid).2.requestCache = st.requestCache := by
  unfold checkRateLimit
  cases mapLookup st.rateLimitMap cid with
  | none => rfl
  | some l =>
      by_cases h1 : t0 > l.resetTime
      · simp [h1]
      · by_cases h2 : l.count ≥ 15 <;> simp [h1, h2]

theorem checkRateLimit_circuitBreaker (st : ServiceState) (t0 : Nat)
    (cid : String) :
    (checkRateLimit st t0 cid).2.circuitBreaker = st.circuitBreaker := by
  unfold checkRateLimit
  cases mapLookup st.rateLimitMap cid with
  | none => rfl
  | some l =>
      by_cases h1 : t0 > l.resetTime
      · simp [h1]
      · by_cases h2 : l.count ≥ 15 <;> simp [h1, h2]

theorem checkRateLimit_fresh (st : ServiceState) (t0 : Nat) (cid : String)
    (hl : mapLookup st.rateLimitMap cid = none) :
    checkRateLimit st t0 cid =
      (true, { st with
        rateLimitMap := mapInsert st.rateLimitMap cid ⟨1, t0 + 60000⟩ }) := by
  unfold checkRateLimit; simp [hl]

theorem checkRateLimit_stale (st : ServiceState) (t0 : Nat) (cid : String)
    (l : RateLimitEntry) (hl : mapLookup st.rateLimitMap cid = some l)
    (hwin : t0 > l.resetTime) :
    checkRateLimit st t0 cid =
      (true, { st with
        rateLimitMap := mapInsert st.rateLimitMap cid ⟨1, t0 + 60000⟩ }) := by
  unfold checkRateLimit; simp [hl, hwin]

theorem checkRateLimit_rejects (st : ServiceState) (t0 : Nat) (cid : String)
    (l : RateLimitEntry) (hl : mapLookup st.rateLimitMap cid = some l)
    (hwin : t0 ≤ l.resetTime) (hcount : l.count ≥ 15) :
    checkRateLimit st t0 cid = (false, st) := by
  unfold checkRateLimit; simp [hl, Nat.not_lt.mpr hwin, hcount]

theorem checkRateLimit_increment (st : ServiceState) (t0 : Nat) (cid : String)
    (l : RateLimitEntry) (hl : mapLookup st.rateLimitMap cid = some l)
    (hwin : t0 ≤ l.resetTime) (hcount : l.count < 15) :
    checkRateLimit st t0 cid =
      (true, { st with
        rateLimitMap := mapInsert st.rateLimitMap cid
                          ⟨l.count + 1, l.resetTime⟩ }) := by
  unfold checkRateLimit
  simp [hl, Nat.not_lt.mpr hwin, Nat.not_le.mpr hcount]

theorem checkRateLimit_count_cap (st : ServiceState) (t0 : Nat) (cid : String)
    (st' : ServiceState) (h : checkRateLimit st t0 cid = (true, st')) :
    ∀ l', mapLookup st'.rateLimitMap cid = some l' → l'.count ≤ 15 := by
  intro l' hl'
  cases hm : mapLookup st.rateLimitMap cid with
  | none =>
      have hx := (checkRateLimit_fresh st t0 cid hm).symm.trans h
      simp only [Prod.mk.injEq, true_and] at hx
      rw [← hx, mapLookup_insert_self] at hl'
      cases hl'
      simp
  | some l =>
      by_cases h1 : t0 > l.resetTime
      · have hx := (checkRateLimit_stale st t0 cid l hm h1).symm.trans h
        simp only [Prod.mk.injEq, true_and] at hx
        rw [← hx, mapLookup_insert_self] at hl'
        cases hl'
        simp
      · by_cases h2 : l.count ≥ 15
        · have hx := (checkRateLimit_rejects st t0 cid l hm
            (Nat.le_of_not_lt h1) h2).symm.trans h
          simp at hx
        · have hx := (checkRateLimit_increment st t0 cid l hm
            (Nat.le_of_not_lt h1) (Nat.lt_of_not_le h2)).symm.trans h
          simp only [Prod.mk.injEq, true_and] at hx
          rw [← hx, mapLookup_insert_self] at hl'
          cases hl'
          simp
          omega

theorem checkIdempotency_live (st : ServiceState) (now : Nat) (key : String)
    (e : CacheEntry) (h : mapLookup st.requestCache key = some e)
    (hlive : e.expiresAt > now) :
    checkIdempotency st now key = (some e.data, st) := by
  unfold checkIdempotency; simp [h, hlive]

theorem checkIdempotency_expired (st : ServiceState) (now : Nat) (key : String)
    (e : CacheEntry) (h : mapLookup st.requestCache key = some e)
    (hexp : e.expiresAt ≤ now) :
    checkIdempotency st now key =
      (none, { st with requestCache := mapErase st.requestCache key }) := by
  unfold checkIdempotency; simp [h, Nat.not_lt.mpr hexp]

theorem checkIdempotency_absent (st : ServiceState) (now : Nat) (key : String)
    (h : mapLookup st.requestCache key = none) :
    checkIdempotency st now key = (none, st) := by
  unfold checkIdempotency; simp [h]

theorem checkCircuitBreaker_absent (st : ServiceState) (now : Nat) (ep : String)
    (h : mapLookup st.circuitBreaker ep = none) :
    checkCircuitBreaker st now ep =
      (true, { st with
        circuitBreaker := mapInsert st.circuitBreaker ep ⟨0, 0, false⟩ }) := by
  unfold checkCircuitBreaker; simp [h]

theorem checkCircuitBreaker_closed (st : ServiceState) (now : Nat) (ep : String)
    (b : BreakerState) (h : mapLookup st.circuitBreaker ep = some b)
    (hb : b.isOpen = false) :
    checkCircuitBreaker st now ep = (true, st) := by
  unfold checkCircuitBreaker; simp [h, hb]

theorem checkCircuitBreaker_open_within (st : ServiceState) (now : Nat)
    (ep : String) (b : BreakerState) (h : mapLookup st.circuitBreaker ep = some b)
    (hb : b.isOpen = true) (hcool : now - b.lastFailure ≤ 30000) :
    checkCircuitBreaker st now ep = (false, st) := by
  unfold checkCircuitBreaker; simp [h, hb, Nat.not_lt.mpr hcool]

theorem checkCircuitBreaker_open_elapsed (st : ServiceState) (now : Nat)
    (ep : String) (b : BreakerState) (h : mapLookup st.circuitBreaker ep = some b)
    (hb : b.isOpen = true) (hcool : now - b.lastFailure > 30000) :
    checkCircuitBreaker st now ep =
      (true, { st with
        circuitBreaker := mapInsert st.circuitBreaker ep
                            { b with isOpen := false, failures := 0 } }) := by
  unfold checkCircuitBreaker; simp [h, hb, hcool]

theorem recordSuccess_lookup (st : ServiceState) (ep : String) (b : BreakerState)
    (h : mapLookup st.circuitBreaker ep = some b) :
    mapLookup (recordSuccess st ep).circuitBreaker ep =
      some { b with failures := 0, isOpen := false } := by
  unfold recordSuccess
  rw [h]
  exact mapLookup_insert_self _ _ _

theorem recordFailure_lookup (st : ServiceState) (now : Nat) (ep : String) :
    mapLookup (recordFailure st now ep).circuitBreaker ep =
      some ⟨((mapLookup st.circuitBreaker ep).getD ⟨0, 0, false⟩).failures + 1,
            now,
            if ((mapLookup st.circuitBreaker ep).getD ⟨0, 0, false⟩).failures + 1 ≥ 3
            then true
            else ((mapLookup st.circuitBreaker ep).getD ⟨0, 0, false⟩).isOpen⟩ := by
  unfold recordFailure
  exact mapLookup_insert_self _ _ _

theorem setIdempotencyCache_circuitBreaker (st : ServiceState) (now : Nat)
    (key : String) (r : Response) (ttl : Nat) :
    (setIdempotencyCache st now key r ttl).circuitBreaker = st.circuitBreaker := rfl

/-! ## Retry-loop lemmas -/

theorem callAIWithRetryAux_zero (message : String) (oracle : Nat → AttemptOutcome)
    (jitter : Nat → Nat) (attempt : Nat) :
    callAIWithRetryAux message oracle jitter attempt 0 =
      ⟨.error "no attempts", 0, []⟩ := rfl

theorem callAIWithRetryAux_succ (message : String) (oracle : Nat → AttemptOutcome)
    (jitter : Nat → Nat) (attempt remaining : Nat) :
    callAIWithRetryAux message oracle jitter attempt (remaining + 1) =
      match attemptEval message (oracle attempt) with
      | .ok d => ⟨.ok d, 1, []⟩
      | .error e =>
          if remaining = 0 then ⟨.error e, 1, []⟩
          else
            let rest := callAIWithRetryAux message oracle jitter (attempt + 1) remaining
            ⟨rest.result, rest.attemptsMade + 1,
              (2 ^ (attempt - 1) * 1000 + jitter attempt) :: rest.delays⟩ := rfl

theorem callAIWithRetry_first_success (message : String)
    (oracle : Nat → AttemptOutcome) (jitter : Nat → Nat) (d : AIResult)
    (h : attemptEval message (oracle 1) = .ok d) :
    callAIWithRetry message oracle jitter 3 = ⟨.ok d, 1, []⟩ := by
  show callAIWithRetryAux message oracle jitter 1 (2 + 1) = _
  rw [callAIWithRetryAux_succ, h]

theorem callAIWithRetry_three_failures (message : String)
    (oracle : Nat → AttemptOutcome) (jitter : Nat → Nat) (e1 e2 e3 : String)
    (h1 : attemptEval message (oracle 1) = .error e1)
    (h2 : attemptEval message (oracle 2) = .error e2)
    (h3 : attemptEval message (oracle 3) = .error e3) :
    callAIWithRetry message oracle jitter 3 =
      ⟨.error e3, 3, [1000 + jitter 1, 2000 + jitter 2]⟩ := by
  have s3 : callAIWithRetryAux message oracle jitter 3 1 = ⟨.error e3, 1, []⟩ := by
    show callAIWithRetryAux message oracle jitter 3 (0 + 1) = _
    rw [callAIWithRetryAux_succ, h3]
    rfl
  have s2 : callAIWithRetryAux message oracle jitter 2 2 =
      ⟨.error e3, 2, [2000 + jitter 2]⟩ := by
    show callAIWithRetryAux message oracle jitter 2 (1 + 1) = _
    rw [callAIWithRetryAux_succ, h2]
    simp [s3]
  show callAIWithRetryAux message oracle jitter 1 (2 + 1) = _
  rw [callAIWithRetryAux_succ, h1]
  simp [s2]

theorem attemptEval_ok_shape (message : String) (o : AttemptOutcome)
    (d : AIResult) (h : attemptEval message o = .ok d) :
    ¬ d.completion = "" ∧ d.model = "claude-3-5-sonnet" := by
  cases o with
  | httpError status statusText => simp [attemptEval] at h
  | thrown m => simp [attemptEval] at h
  | ok completion tokensUsed =>
      cases completion with
      | none => simp [attemptEval] at h
      | some c =>
          by_cases hc : c = ""
          · simp [attemptEval, hc] at h
          · simp [attemptEval, hc] at h
            rw [← h]
            exact ⟨hc, rfl⟩

theorem callAIWithRetryAux_ok (message : String) (oracle : Nat → AttemptOutcome)
    (jitter : Nat → Nat) :
    ∀ remaining attempt d,
      (callAIWithRetryAux message oracle jitter attempt remaining).result = .ok d →
      ∃ i, attemptEval message (oracle i) = .ok d := by
  intro remaining
  induction remaining with
  | zero =>
      intro attempt d h
      rw [callAIWithRetryAux_zero] at h
      simp at h
  | succ n ih =>
      intro attempt d h
      rw [callAIWithRetryAux_succ] at h
      cases he : attemptEval message (oracle attempt) with
      | ok d2 =>
          rw [he] at h
          simp at h
          exact ⟨attempt, by rw [he, h]⟩
      | error e =>
          rw [he] at h
          by_cases hn : n = 0
          · simp [hn] at h
          · simp [hn] at h
            exact ih (attempt + 1) d h

/-! ## Execution lemmas for `processMessage` -/

theorem processMessage_rateLimited (t0 t1 : Nat) (oracle : Nat → AttemptOutcome)
    (jitter : Nat → Nat) (input : MessageInput) (st : ServiceState)
    (l : RateLimitEntry)
    (hl : mapLookup st.rateLimitMap input.conversationId = some l)
    (hwin : t0 ≤ l.resetTime) (hcount : l.count ≥ 15) :
    processMessage t0 t1 oracle jitter input st =
      (.error rateLimitErrorText, st) := by
  unfold processMessage
  rw [checkRateLimit_rejects st t0 input.conversationId l hl hwin hcount]
  rfl

theorem processMessage_cached (t0 t1 : Nat) (oracle : Nat → AttemptOutcome)
    (jitter : Nat → Nat) (input : MessageInput) (st st1 : ServiceState)
    (key : String) (e : CacheEntry)
    (hrl : checkRateLimit st t0 input.conversationId = (true, st1))
    (hkey : input.idempotencyKey = some key)
    (he : mapLookup st.requestCache key = some e) (hlive : e.expiresAt > t0) :
    processMessage t0 t1 oracle jitter input st = (.ok e.data, st1) := by
  have hcache : st1.requestCache = st.requestCache := by
    have hx := checkRateLimit_requestCache st t0 input.conversationId
    rw [hrl] at hx
    exact hx
  unfold processMessage
  rw [hrl, hkey]
  simp [checkIdempotency_live st1 t0 key e (by rw [hcache]; exact he) hlive]

theorem processMessage_pass_to_afterIdem (t0 t1 : Nat)
    (oracle : Nat → AttemptOutcome) (jitter : Nat → Nat) (input : MessageInput)
    (st st1 : ServiceState)
    (hrl : checkRateLimit st t0 input.conversationId = (true, st1))
    (hmiss : ∀ key, input.idempotencyKey = some key →
       ∀ e, mapLookup st.requestCache key = some e → e.expiresAt ≤ t0) :
    ∃ st2 : ServiceState,
      st2.circuitBreaker = st1.circuitBreaker ∧
      st2.rateLimitMap = st1.rateLimitMap ∧
      processMessage t0 t1 oracle jitter input st =
        afterIdem t0 t1 oracle jitter input st2 := by
  have hcache : st1.requestCache = st.requestCache := by
    have hx := checkRateLimit_requestCache st t0 input.conversationId
    rw [hrl] at hx
    exact hx
  unfold processMessage
  rw [hrl]
  cases hkey : input.idempotencyKey with
  | none => exact ⟨st1, rfl, rfl, by simp⟩
  | some key =>
      cases hm : mapLookup st1.requestCache key with
      | none =>
          exact ⟨st1, rfl, rfl, by simp [checkIdempotency_absent st1 t0 key hm]⟩
      | some e =>
          have hexp : e.expiresAt ≤ t0 :=
            hmiss key hkey e (by rw [← hcache]; exact hm)
          exact ⟨{ st1 with requestCache := mapErase st1.requestCache key },
                 rfl, rfl, by simp [checkIdempotency_expired st1 t0 key e hm hexp]⟩

theorem afterIdem_open (t0 t1 : Nat) (oracle : Nat → AttemptOutcome)
    (jitter : Nat → Nat) (input : MessageInput) (st : ServiceState)
    (b : BreakerState) (h : mapLookup st.circuitBreaker "ai-api" = some b)
    (hb : b.isOpen = true) (hcool : t0 - b.lastFailure ≤ 30000) :
    afterIdem t0 t1 oracle jitter input st =
      (.ok (createFallbackResponse t0 input.message input.conversationId
              "Circuit breaker open" none), st) := by
  unfold afterIdem
  rw [checkCircuitBreaker_open_within st t0 "ai-api" b h hb hcool]
  rfl

theorem afterIdem_pass (t0 t1 : Nat) (oracle : Nat → AttemptOutcome)
    (jitter : Nat → Nat) (input : MessageInput) (st st3 : ServiceState)
    (h : checkCircuitBreaker st t0 "ai-api" = (true, st3)) :
    afterIdem t0 t1 oracle jitter input st =
      runUpstream t0 t1 oracle jitter input st3 := by
  unfold afterIdem
  rw [h]
  rfl

theorem runUpstream_success (t0 t1 : Nat) (oracle : Nat → AttemptOutcome)
    (jitter : Nat → Nat) (input : MessageInput) (st : ServiceState) (d : AIResult)
    (h : attemptEval input.message (oracle 1) = .ok d) :
    runUpstream t0 t1 oracle jitter input st =
      (.ok (successResponse t0 t1 input d),
       match input.idempotencyKey with
       | some key => setIdempotencyCache (recordSuccess st "ai-api") t1 key
                       (successResponse t0 t1 input d) 86400000
       | none => recordSuccess st "ai-api") := by
  unfold runUpstream
  rw [callAIWithRetry_first_success input.message oracle jitter d h]

theorem runUpstream_exhausted (t0 t1 : Nat) (oracle : Nat → AttemptOutcome)
    (jitter : Nat → Nat) (input : MessageInput) (st : ServiceState)
    (e1 e2 e3 : String)
    (h1 : attemptEval input.message (oracle 1) = .error e1)
    (h2 : attemptEval input.message (oracle 2) = .error e2)
    (h3 : attemptEval input.message (oracle 3) = .error e3) :
    runUpstream t0 t1 oracle jitter input st =
      (.ok (createFallbackResponse t1 input.message input.conversationId e3
              (some (t1 - t0))),
       match input.idempotencyKey with
       | some key => setIdempotencyCache (recordFailure st t1 "ai-api") t1 key
                       (createFallbackResponse t1 input.message
                         input.conversationId e3 (some (t1 - t0))) 300000
       | none => recordFailure st t1 "ai-api") := by
  unfold runUpstream
  rw [callAIWithRetry_three_failures input.message oracle jitter e1 e2 e3 h1 h2 h3]

theorem checkRateLimit_false (st : ServiceState) (t0 : Nat) (cid : String)
    (h : (checkRateLimit st t0 cid).1 = false) :
    checkRateLimit st t0 cid = (false, st) := by
  cases hm : mapLookup st.rateLimitMap cid with
  | none => rw [checkRateLimit_fresh st t0 cid hm] at h; simp at h
  | some l =>
      by_cases h1 : t0 > l.resetTime
      · rw [checkRateLimit_stale st t0 cid l hm h1] at h; simp at h
      · by_cases h2 : l.count ≥ 15
        · exact checkRateLimit_rejects st t0 cid l hm (Nat.le_of_not_lt h1) h2
        · rw [checkRateLimit_increment st t0 cid l hm (Nat.le_of_not_lt h1)
            (Nat.lt_of_not_le h2)] at h
          simp at h

theorem processMessage_rateLimited_of_false (t0 t1 : Nat)
    (oracle : Nat → AttemptOutcome) (jitter : Nat → Nat) (input : MessageInput)
    (st : ServiceState)
    (h : (checkRateLimit st t0 input.conversationId).1 = false) :
    processMessage t0 t1 oracle jitter input st =
      (.error rateLimitErrorText, st) := by
  unfold processMessage
  rw [checkRateLimit_false st t0 input.conversationId h]
  rfl

/-- A breaker that is absent, closed, or open past the cooldown lets the
call through, and the resulting state still holds an entry for the
endpoint. -/
theorem checkCircuitBreaker_passes (st : ServiceState) (now : Nat) (ep : String)
    (h : ∀ b, mapLookup st.circuitBreaker ep = some b →
       b.isOpen = false ∨ now - b.lastFailure > 30000) :
    ∃ st3 b3, checkCircuitBreaker st now ep = (true, st3) ∧
      mapLookup st3.circuitBreaker ep = some b3 := by
  cases hm : mapLookup st.circuitBreaker ep with
  | none =>
      refine ⟨_, ⟨0, 0, false⟩, checkCircuitBreaker_absent st now ep hm, ?_⟩
      exact mapLookup_insert_self _ _ _
  | some b =>
      cases hopen : b.isOpen with
      | false => exact ⟨st, b, checkCircuitBreaker_closed st now ep b hm hopen, hm⟩
      | true =>
          rcases h b hm with hb | hcool
          · rw [hopen] at hb; cases hb
          · refine ⟨_, { b with isOpen := false, failures := 0 },
              checkCircuitBreaker_open_elapsed st now ep b hm hopen hcool, ?_⟩
            exact mapLookup_insert_self _ _ _

theorem runUpstream_isOk (t0 t1 : Nat) (oracle : Nat → AttemptOutcome)
    (jitter : Nat → Nat) (input : MessageInput) (st : ServiceState) :
    ((runUpstream t0 t1 oracle jitter input st).1).isOk = true := by
  simp only [runUpstream]
  cases h : (callAIWithRetry input.message oracle jitter 3).result <;>
    simp [h, Except.isOk, Except.toBool]

theorem afterIdem_isOk (t0 t1 : Nat) (oracle : Nat → AttemptOutcome)
    (jitter : Nat → Nat) (input : MessageInput) (st : ServiceState) :
    ((afterIdem t0 t1 oracle jitter input st).1).isOk = true := by
  simp only [afterIdem]
  by_cases h : (checkCircuitBreaker st t0 "ai-api").1
  · simpa [h, Except.isOk, Except.toBool] using
      runUpstream_isOk t0 t1 oracle jitter input (checkCircuitBreaker st t0 "ai-api").2
  · simp [h, Except.isOk, Except.toBool]

theorem processMessage_isOk_of_pass (t0 t1 : Nat)
    (oracle : Nat → AttemptOutcome) (jitter : Nat → Nat) (input : MessageInput)
    (st st1 : ServiceState)
    (hrl : checkRateLimit st t0 input.conversationId = (true, st1)) :
    ((processMessage t0 t1 oracle jitter input st).1).isOk = true := by
  simp only [processMessage, hrl]
  cases hkey : input.idempotencyKey with
  | none => simpa using afterIdem_isOk t0 t1 oracle jitter input st1
  | some key =>
      cases h : (checkIdempotency st1 t0 key).1 with
      | none =>
          simpa [h] using
            afterIdem_isOk t0 t1 oracle jitter input (checkIdempotency st1 t0 key).2
      | some c => simp [h, Except.isOk, Except.toBool]

/-- The breaker field of the state reached after rate limiting passes. -/
theorem breaker_after_rateLimit (t0 : Nat) (input : MessageInput)
    (st st1 : ServiceState)
    (hrl : checkRateLimit st t0 input.conversationId = (true, st1)) :
    st1.circuitBreaker = st.circuitBreaker := by
  have hx := checkRateLimit_circuitBreaker st t0 input.conversationId
  rw [hrl] at hx
  exact hx

/-- Exhausted-failure run: rate limit passes, no live idempotency entry,
breaker lets the call through, and all three upstream attempts fail.  The
call resolves to the synthesized fallback response. -/
theorem processMessage_exhausted_run (t0 t1 : Nat)
    (oracle : Nat → AttemptOutcome) (jitter : Nat → Nat) (input : MessageInput)
    (st st1 : ServiceState) (e1 e2 e3 : String)
    (hrl : checkRateLimit st t0 input.conversationId = (true, st1))
    (hmiss : ∀ key, input.idempotencyKey = some key →
       ∀ e, mapLookup st.requestCache key = some e → e.expiresAt ≤ t0)
    (hcb : ∀ b, mapLookup st.circuitBreaker "ai-api" = some b →
       b.isOpen = false ∨ t0 - b.lastFailure > 30000)
    (h1 : attemptEval input.message (oracle 1) = .error e1)
    (h2 : attemptEval input.message (oracle 2) = .error e2)
    (h3 : attemptEval input.message (oracle 3) = .error e3) :
    (processMessage t0 t1 oracle jitter input st).1 =
      .ok (createFallbackResponse t1 input.message input.conversationId e3
             (some (t1 - t0))) := by
  obtain ⟨st2, hcb2, _, heq⟩ :=
    processMessage_pass_to_afterIdem t0 t1 oracle jitter input st st1 hrl hmiss
  have hbr : st2.circuitBreaker = st.circuitBreaker := by
    rw [hcb2]; exact breaker_after_rateLimit t0 input st st1 hrl
  obtain ⟨st3, b3, hc, -⟩ :=
    checkCircuitBreaker_passes st2 t0 "ai-api" (by rw [hbr]; exact hcb)
  rw [heq, afterIdem_pass t0 t1 oracle jitter input st2 st3 hc,
    runUpstream_exhausted t0 t1 oracle jitter input st3 e1 e2 e3 h1 h2 h3]

/-- Success run: rate limit passes, no live idempotency entry, breaker
lets the call through, and the first upstream attempt succeeds.  The call
resolves to the freshly built success response; the breaker entry ends
reset and closed; a supplied idempotency key maps to the response with a
24 h TTL. -/
theorem processMessage_success_run (t0 t1 : Nat)
    (oracle : Nat → AttemptOutcome) (jitter : Nat → Nat) (input : MessageInput)
    (st st1 : ServiceState) (d : AIResult)
    (hrl : checkRateLimit st t0 input.conversationId = (true, st1))
    (hmiss : ∀ key, input.idempotencyKey = some key →
       ∀ e, mapLookup st.requestCache key = some e → e.expiresAt ≤ t0)
    (hcb : ∀ b, mapLookup st.circuitBreaker "ai-api" = some b →
       b.isOpen = false ∨ t0 - b.lastFailure > 30000)
    (hd : attemptEval input.message (oracle 1) = .ok d) :
    ∃ st' : ServiceState,
      processMessage t0 t1 oracle jitter input st =
        (.ok (successResponse t0 t1 input d), st') ∧
      (∃ lf, mapLookup st'.circuitBreaker "ai-api" = some ⟨0, lf, false⟩) ∧
      (∀ key, input.idempotencyKey = some key →
         mapLookup st'.requestCache key =
           some ⟨successResponse t0 t1 input d, t1 + 86400000⟩) := by
  obtain ⟨st2, hcb2, _, heq⟩ :=
    processMessage_pass_to_afterIdem t0 t1 oracle jitter input st st1 hrl hmiss
  have hbr : st2.circuitBreaker = st.circuitBreaker := by
    rw [hcb2]; exact breaker_after_rateLimit t0 input st st1 hrl
  obtain ⟨st3, b3, hc, hb3⟩ :=
    checkCircuitBreaker_passes st2 t0 "ai-api" (by rw [hbr]; exact hcb)
  have hrun := runUpstream_success t0 t1 oracle jitter input st3 d hd
  rw [heq, afterIdem_pass t0 t1 oracle jitter input st2 st3 hc, hrun]
  have hrs : mapLookup (recordSuccess st3 "ai-api").circuitBreaker "ai-api" =
      some { b3 with failures := 0, isOpen := false } :=
    recordSuccess_lookup st3 "ai-api" b3 hb3
  cases hkey : input.idempotencyKey with
  | none =>
      refine ⟨recordSuccess st3 "ai-api", rfl, ⟨b3.lastFailure, hrs⟩, ?_⟩
      intro key hk
      cases hk
  | some key =>
      refine ⟨setIdempotencyCache (recordSuccess st3 "ai-api") t1 key
        (successResponse t0 t1 input d) 86400000, rfl,
        ⟨b3.lastFailure, by
          rw [setIdempotencyCache_circuitBreaker]; exact hrs⟩, ?_⟩
      intro key' hk
      cases hk
      exact mapLookup_insert_self _ _ _

/-- Open-breaker run: rate limit passes, no live idempotency entry, and
the breaker is open within its cooldown.  The call resolves to the
breaker-open fallback without consulting the upstream oracle, leaving
breaker state untouched. -/
theorem processMessage_breaker_open_run (t0 t1 : Nat)
    (oracle : Nat → AttemptOutcome) (jitter : Nat → Nat) (input : MessageInput)
    (st st1 : ServiceState) (b : BreakerState)
    (hrl : checkRateLimit st t0 input.conversationId = (true, st1))
    (hmiss : ∀ key, input.idempotencyKey = some key →
       ∀ e, mapLookup st.requestCache key = some e → e.expiresAt ≤ t0)
    (hb : mapLookup st.circuitBreaker "ai-api" = some b)
    (hopen : b.isOpen = true) (hcool : t0 - b.lastFailure ≤ 30000) :
    ∃ st2 : ServiceState,
      processMessage t0 t1 oracle jitter input st =
        (.ok (createFallbackResponse t0 input.message input.conversationId
                "Circuit breaker open" none), st2) ∧
      st2.circuitBreaker = st.circuitBreaker := by
  obtain ⟨st2, hcb2, _, heq⟩ :=
    processMessage_pass_to_afterIdem t0 t1 oracle jitter input st st1 hrl hmiss
  have hbr : st2.circuitBreaker = st.circuitBreaker := by
    rw [hcb2]; exact breaker_after_rateLimit t0 input st st1 hrl
  refine ⟨st2, ?_, hbr⟩
  rw [heq]
  exact afterIdem_open t0 t1 oracle jitter input st2 b (by rw [hbr]; exact hb)
    hopen hcool

/-- Safety invariant of the breaker map: an open breaker has recorded at
least 3 failures. -/
def breakerMapInv (m : List (String × BreakerState)) : Prop :=
  ∀ ep b, mapLookup m ep = some b → b.isOpen = true → b.failures ≥ 3

/-- `BreakerInv st`: every breaker entry of the service state satisfies
`isOpen → failures ≥ 3`. -/
def BreakerInv (st : ServiceState) : Prop := breakerMapInv st.circuitBreaker

theorem breakerMapInv_insert (m : List (String × BreakerState)) (ep : String)
    (v : BreakerState) (hInv : breakerMapInv m)
    (hv : v.isOpen = true → v.failures ≥ 3) :
    breakerMapInv (mapInsert m ep v) := by
  intro ep2 b hb hopen
  rw [mapLookup_insert] at hb
  by_cases he : ep2 = ep
  · rw [if_pos he] at hb
    cases hb
    exact hv hopen
  · rw [if_neg he] at hb
    exact hInv ep2 b hb hopen

theorem breakerInv_of_breaker_eq (st st2 : ServiceState)
    (h : st2.circuitBreaker = st.circuitBreaker) (hInv : BreakerInv st) :
    BreakerInv st2 := by
  intro ep b hb
  rw [h] at hb
  exact hInv ep b hb

theorem recordSuccess_preserves_inv (st : ServiceState) (ep : String)
    (hInv : BreakerInv st) : BreakerInv (recordSuccess st ep) := by
  unfold recordSuccess
  cases hm : mapLookup st.circuitBreaker ep with
  | none => exact hInv
  | some b =>
      intro ep2 b2 hb hopen
      exact breakerMapInv_insert st.circuitBreaker ep _ hInv
        (fun h => by simp at h) ep2 b2 hb hopen

theorem recordFailure_preserves_inv (st : ServiceState) (now : Nat) (ep : String)
    (hInv : BreakerInv st) : BreakerInv (recordFailure st now ep) := by
  unfold recordFailure
  intro ep2 b2 hb hopen
  refine breakerMapInv_insert st.circuitBreaker ep _ hInv ?_ ep2 b2 hb hopen
  intro h
  dsimp only at h ⊢
  by_cases h3 : ((mapLookup st.circuitBreaker ep).getD ⟨0, 0, false⟩).failures + 1 ≥ 3
  · exact h3
  · rw [if_neg h3] at h
    cases hm : mapLookup st.circuitBreaker ep with
    | none => rw [hm] at h; simp at h
    | some b0 =>
        rw [hm] at h h3
        simp only [Option.getD_some] at h h3 ⊢
        have hge := hInv ep b0 hm h
        omega

theorem checkCircuitBreaker_preserves_inv (st : ServiceState) (now : Nat)
    (ep : String) (hInv : BreakerInv st) :
    BreakerInv (checkCircuitBreaker st now ep).2 := by
  unfold checkCircuitBreaker
  cases hm : mapLookup st.circuitBreaker ep with
  | none =>
      intro ep2 b2 hb hopen
      exact breakerMapInv_insert st.circuitBreaker ep _ hInv
        (fun h => by simp at h) ep2 b2 hb hopen
  | some b =>
      by_cases hcond : b.isOpen && decide (now - b.lastFailure > 30000)
      · simp only [hcond, if_true]
        intro ep2 b2 hb hopen
        exact breakerMapInv_insert st.circuitBreaker ep _ hInv
          (fun h => by simp at h) ep2 b2 hb hopen
      · simp only [hcond]
        simp only [Bool.false_eq_true, if_false]
        exact hInv

theorem runUpstream_preserves_inv (t0 t1 : Nat) (oracle : Nat → AttemptOutcome)
    (jitter : Nat → Nat) (input : MessageInput) (st : ServiceState)
    (hInv : BreakerInv st) :
    BreakerInv (runUpstream t0 t1 oracle jitter input st).2 := by
  simp only [runUpstream]
  cases h : (callAIWithRetry input.message oracle jitter 3).result with
  | ok d =>
      cases hkey : input.idempotencyKey with
      | none => simpa [h, hkey] using recordSuccess_preserves_inv st "ai-api" hInv
      | some key =>
          simp only [h, hkey]
          exact breakerInv_of_breaker_eq _ _
            (setIdempotencyCache_circuitBreaker _ _ _ _ _)
            (recordSuccess_preserves_inv st "ai-api" hInv)
  | error e =>
      cases hkey : input.idempotencyKey with
      | none => simpa [h, hkey] using recordFailure_preserves_inv st t1 "ai-api" hInv
      | some key =>
          simp only [h, hkey]
          exact breakerInv_of_breaker_eq _ _
            (setIdempotencyCache_circuitBreaker _ _ _ _ _)
            (recordFailure_preserves_inv st t1 "ai-api" hInv)

theorem afterIdem_preserves_inv (t0 t1 : Nat) (oracle : Nat → AttemptOutcome)
    (jitter : Nat → Nat) (input : MessageInput) (st : ServiceState)
    (hInv : BreakerInv st) :
    BreakerInv (afterIdem t0 t1 oracle jitter input st).2 := by
  simp only [afterIdem]
  by_cases hc : (checkCircuitBreaker st t0 "ai-api").1
  · simp only [hc, Bool.not_true, Bool.false_eq_true, if_false]
    exact runUpstream_preserves_inv t0 t1 oracle jitter input _
      (checkCircuitBreaker_preserves_inv st t0 "ai-api" hInv)
  · have hc2 : (checkCircuitBreaker st t0 "ai-api").1 = false :=
      Bool.not_eq_true _ ▸ Bool.of_not_eq_true hc
    simp only [hc2, Bool.not_false, if_true]
    exact checkCircuitBreaker_preserves_inv st t0 "ai-api" hInv

theorem checkIdempotency_circuitBreaker (st : ServiceState) (now : Nat)
    (key : String) :
    (checkIdempotency st now key).2.circuitBreaker = st.circuitBreaker := by
  unfold checkIdempotency
  cases mapLookup st.requestCache key with
  | none => rfl
  | some e => by_cases h : e.expiresAt > now <;> simp [h]

theorem processMessage_preserves_inv (t0 t1 : Nat)
    (oracle : Nat → AttemptOutcome) (jitter : Nat → Nat) (input : MessageInput)
    (st : ServiceState) (hInv : BreakerInv st) :
    BreakerInv (processMessage t0 t1 oracle jitter input st).2 := by
  by_cases hrl : (checkRateLimit st t0 input.conversationId).1 = false
  · rw [processMessage_rateLimited_of_false t0 t1 oracle jitter input st hrl]
    exact hInv
  · have hb1 : (checkRateLimit st t0 input.conversationId).1 = true := by
      cases h : (checkRateLimit st t0 input.conversationId).1
      · exact absurd h hrl
      · rfl
    obtain ⟨st1, hrlt⟩ :
        ∃ st1, checkRateLimit st t0 input.conversationId = (true, st1) :=
      ⟨_, by rw [← hb1]⟩
    have hInv1 : BreakerInv st1 :=
      breakerInv_of_breaker_eq st st1
        (breaker_after_rateLimit t0 input st st1 hrlt) hInv
    simp only [processMessage, hrlt]
    cases hkey : input.idempotencyKey with
    | none =>
        simpa using afterIdem_preserves_inv t0 t1 oracle jitter input st1 hInv1
    | some key =>
        have hInv2 : BreakerInv (checkIdempotency st1 t0 key).2 :=
          breakerInv_of_breaker_eq st1 _
            (checkIdempotency_circuitBreaker st1 t0 key) hInv1
        cases h : (checkIdempotency st1 t0 key).1 with
        | none =>
            simpa [h] using afterIdem_preserves_inv t0 t1 oracle jitter input _ hInv2
        | some c => simpa [h] using hInv2

/-- The `cached` flag of every freshly built success response is `false`. -/
theorem successResponse_cached (t0 t1 : Nat) (input : MessageInput)
    (d : AIResult) : (successResponse t0 t1 input d).metadata.cached = false := rfl

/-- The `cached` flag of every synthesized fallback response is `false`. -/
theorem createFallbackResponse_cached (now : Nat) (m cid er : String)
    (pt : Option Nat) :
    (createFallbackResponse now m cid er pt).metadata.cached = false := rfl

/-- `CacheFlagInv st`: every idempotency-cache entry stores a response
whose `metadata.cached` flag is `false`. -/
def CacheFlagInv (st : ServiceState) : Prop :=
  ∀ k e, mapLookup st.requestCache k = some e → e.data.metadata.cached = false

theorem cacheFlagInv_of_cache_eq (st st2 : ServiceState)
    (h : st2.requestCache = st.requestCache) (hInv : CacheFlagInv st) :
    CacheFlagInv st2 := by
  intro k e he
  rw [h] at he
  exact hInv k e he

theorem cacheFlagInv_insert (st : ServiceState) (m : List (String × CacheEntry))
    (key : String) (v : CacheEntry) (hInv : CacheFlagInv st)
    (hm : m = st.requestCache) (hv : v.data.metadata.cached = false) :
    ∀ k e, mapLookup (mapInsert m key v) k = some e →
      e.data.metadata.cached = false := by
  intro k e he
  rw [mapLookup_insert] at he
  by_cases hk : k = key
  · rw [if_pos hk] at he
    cases he
    exact hv
  · rw [if_neg hk] at he
    rw [hm] at he
    exact hInv k e he

theorem cacheFlagInv_erase (st : ServiceState) (key : String)
    (hInv : CacheFlagInv st) :
    ∀ k e, mapLookup (mapErase st.requestCache key) k = some e →
      e.data.metadata.cached = false := by
  intro k e he
  rw [mapLookup_erase] at he
  by_cases hk : k = key
  · rw [if_pos hk] at he
    cases he
  · rw [if_neg hk] at he
    exact hInv k e he

theorem checkCircuitBreaker_requestCache (st : ServiceState) (now : Nat)
    (ep : String) :
    (checkCircuitBreaker st now ep).2.requestCache = st.requestCache := by
  unfold checkCircuitBreaker
  cases mapLookup st.circuitBreaker ep with
  | none => rfl
  | some b =>
      by_cases h : b.isOpen && decide (now - b.lastFailure > 30000) <;> simp [h]

theorem recordSuccess_requestCache (st : ServiceState) (ep : String) :
    (recordSuccess st ep).requestCache = st.requestCache := by
  unfold recordSuccess
  cases mapLookup st.circuitBreaker ep <;> rfl

theorem recordFailure_requestCache (st : ServiceState) (now : Nat) (ep : String) :
    (recordFailure st now ep).requestCache = st.requestCache := rfl

theorem checkIdempotency_some (st : ServiceState) (now : Nat) (key : String)
    (c : Response) (h : (checkIdempotency st now key).1 = some c) :
    ∃ e, mapLookup st.requestCache key = some e ∧ c = e.data ∧
      e.expiresAt > now := by
  unfold checkIdempotency at h
  cases hm : mapLookup st.requestCache key with
  | none => rw [hm] at h; simp at h
  | some e =>
      rw [hm] at h
      dsimp only at h
      by_cases hl : e.expiresAt > now
      · rw [if_pos hl] at h
        simp at h
        exact ⟨e, rfl, h.symm, hl⟩
      · rw [if_neg hl] at h
        simp at h

theorem checkIdempotency_cache_shape (st : ServiceState) (now : Nat)
    (key : String) :
    (checkIdempotency st now key).2.requestCache = st.requestCache ∨
    (checkIdempotency st now key).2.requestCache =
      mapErase st.requestCache key := by
  unfold checkIdempotency
  cases hm : mapLookup st.requestCache key with
  | none => exact Or.inl rfl
  | some e =>
      dsimp only
      by_cases hl : e.expiresAt > now
      · rw [if_pos hl]; exact Or.inl rfl
      · rw [if_neg hl]; exact Or.inr rfl

theorem runUpstream_cacheInv (t0 t1 : Nat) (oracle : Nat → AttemptOutcome)
    (jitter : Nat → Nat) (input : MessageInput) (st : ServiceState)
    (hInv : CacheFlagInv st) :
    (∀ r, (runUpstream t0 t1 oracle jitter input st).1 = .ok r →
       r.metadata.cached = false) ∧
    CacheFlagInv (runUpstream t0 t1 oracle jitter input st).2 := by
  simp only [runUpstream]
  cases h : (callAIWithRetry input.message oracle jitter 3).result with
  | ok d =>
      cases hkey : input.idempotencyKey with
      | none =>
          refine ⟨?_, ?_⟩
          · intro r hr
            simp only [Except.ok.injEq] at hr
            rw [← hr]
            exact successResponse_cached t0 t1 input d
          · exact cacheFlagInv_of_cache_eq st _
              (recordSuccess_requestCache st "ai-api") hInv
      | some key =>
          refine ⟨?_, ?_⟩
          · intro r hr
            simp only [Except.ok.injEq] at hr
            rw [← hr]
            exact successResponse_cached t0 t1 input d
          · intro k e he
            exact cacheFlagInv_insert st _ key _ hInv
              (recordSuccess_requestCache st "ai-api")
              (successResponse_cached t0 t1 input d) k e he
  | error er =>
      cases hkey : input.idempotencyKey with
      | none =>
          refine ⟨?_, ?_⟩
          · intro r hr
            simp only [Except.ok.injEq] at hr
            rw [← hr]
            exact createFallbackResponse_cached t1 input.message
              input.conversationId er (some (t1 - t0))
          · exact cacheFlagInv_of_cache_eq st _
              (recordFailure_requestCache st t1 "ai-api") hInv
      | some key =>
          refine ⟨?_, ?_⟩
          · intro r hr
            simp only [Except.ok.injEq] at hr
            rw [← hr]
            exact createFallbackResponse_cached t1 input.message
              input.conversationId er (some (t1 - t0))
          · intro k e he
            exact cacheFlagInv_insert st _ key _ hInv
              (recordFailure_requestCache st t1 "ai-api")
              (createFallbackResponse_cached t1 input.message
                input.conversationId er (some (t1 - t0))) k e he

theorem afterIdem_cacheInv (t0 t1 : Nat) (oracle : Nat → AttemptOutcome)
    (jitter : Nat → Nat) (input : MessageInput) (st : ServiceState)
    (hInv : CacheFlagInv st) :
    (∀ r, (afterIdem t0 t1 oracle jitter input st).1 = .ok r →
       r.metadata.cached = false) ∧
    CacheFlagInv (afterIdem t0 t1 oracle jitter input st).2 := by
  simp only [afterIdem]
  by_cases hc : (checkCircuitBreaker st t0 "ai-api").1
  · simp only [hc, Bool.not_true, Bool.false_eq_true, if_false]
    exact runUpstream_cacheInv t0 t1 oracle jitter input _
      (cacheFlagInv_of_cache_eq st _
        (checkCircuitBreaker_requestCache st t0 "ai-api") hInv)
  · have hc2 : (checkCircuitBreaker st t0 "ai-api").1 = false :=
      Bool.not_eq_true _ ▸ Bool.of_not_eq_true hc
    simp only [hc2, Bool.not_false, if_true]
    refine ⟨?_, ?_⟩
    · intro r hr
      simp only [Except.ok.injEq] at hr
      rw [← hr]
      exact createFallbackResponse_cached t0 input.message
        input.conversationId "Circuit breaker open" none
    · exact cacheFlagInv_of_cache_eq st _
        (checkCircuitBreaker_requestCache st t0 "ai-api") hInv

theorem processMessage_cacheInv (t0 t1 : Nat) (oracle : Nat → AttemptOutcome)
    (jitter : Nat → Nat) (input : MessageInput) (st : ServiceState)
    (hInv : CacheFlagInv st) :
    (∀ r, (processMessage t0 t1 oracle jitter input st).1 = .ok r →
       r.metadata.cached = false) ∧
    CacheFlagInv (processMessage t0 t1 oracle jitter input st).2 := by
  by_cases hrl : (checkRateLimit st t0 input.conversationId).1 = false
  · rw [processMessage_rateLimited_of_false t0 t1 oracle jitter input st hrl]
    exact ⟨fun r hr => by simp at hr, hInv⟩
  · have hb1 : (checkRateLimit st t0 input.conversationId).1 = true := by
      cases h : (checkRateLimit st t0 input.conversationId).1
      · exact absurd h hrl
      · rfl
    obtain ⟨st1, hrlt⟩ :
        ∃ st1, checkRateLimit st t0 input.conversationId = (true, st1) :=
      ⟨_, by rw [← hb1]⟩
    have hInv1 : CacheFlagInv st1 := by
      refine cacheFlagInv_of_cache_eq st st1 ?_ hInv
      have hx := checkRateLimit_requestCache st t0 input.conversationId
      rw [hrlt] at hx
      exact hx
    simp only [processMessage, hrlt]
    cases hkey : input.idempotencyKey with
    | none =>
        simpa using afterIdem_cacheInv t0 t1 oracle jitter input st1 hInv1
    | some key =>
        have hInv2 : CacheFlagInv (checkIdempotency st1 t0 key).2 := by
          rcases checkIdempotency_cache_shape st1 t0 key with hsh | hsh
          · exact cacheFlagInv_of_cache_eq st1 _ hsh hInv1
          · intro k e he
            rw [hsh] at he
            exact cacheFlagInv_erase st1 key hInv1 k e he
        cases h : (checkIdempotency st1 t0 key).1 with
        | none =>
            simpa [h] using afterIdem_cacheInv t0 t1 oracle jitter input _ hInv2
        | some c =>
            refine ⟨?_, by simpa [h] using hInv2⟩
            intro r hr
            simp at hr
            obtain ⟨e, he, hce, -⟩ := checkIdempotency_some st1 t0 key c h
            rw [← hr, hce]
            exact hInv1 key e he

/-! ## Client-side lemmas -/

/-- Characterization of the drain loop when the first `k` positions are
confirmed successes and position `k` throws: every queued message up to
and including position `k` is submitted in FIFO order with its
`offline-<timestamp>` idempotency key, the flat `processedMessages` array
holds exactly the `k` confirmed pairs, and the appended replies are the
`k` confirmed replies in order. -/
theorem drainLoop_halt (outcome : Nat → Except String ServerReply)
    (reply : Nat → Msg) (e : String) :
    ∀ (q : List Msg) (i k : Nat),
      (∀ j, j < k → outcome (i + j) = .ok ⟨true, reply (i + j)⟩) →
      outcome (i + k) = .error e →
      k < q.length →
      (drainLoop outcome q i).1 =
        (q.take (k + 1)).map
          (fun m => ⟨m.content, "offline-" ++ toString m.timestamp⟩) ∧
      (drainLoop outcome q i).2.1.length = 2 * k ∧
      (drainLoop outcome q i).2.2 =
        (List.range k).map (fun j => reply (i + j)) := by
  intro q
  induction q with
  | nil =>
      intro i k hs hf hk
      exact absurd hk (by simp)
  | cons m rest ih =>
      intro i k hs hf hk
      cases k with
      | zero =>
          have h0 : outcome i = .error e := by simpa using hf
          refine ⟨?_, ?_, ?_⟩ <;> simp [drainLoop, h0]
      | succ k2 =>
          have h0 : outcome i = .ok ⟨true, reply i⟩ := by
            simpa using hs 0 (Nat.succ_pos k2)
          have hs2 : ∀ j, j < k2 →
              outcome (i + 1 + j) = .ok ⟨true, reply (i + 1 + j)⟩ := by
            intro j hj
            have hx := hs (j + 1) (by omega)
            have harith : i + (j + 1) = i + 1 + j := by omega
            rw [harith] at hx
            exact hx
          have hf2 : outcome (i + 1 + k2) = .error e := by
            have harith : i + (k2 + 1) = i + 1 + k2 := by omega
            rw [← harith]
            exact hf
          have hk2 : k2 < rest.length := by
            have := hk
            simp at this
            omega
          obtain ⟨ha, hb, hc⟩ := ih (i + 1) k2 hs2 hf2 hk2
          refine ⟨?_, ?_, ?_⟩
          · simp [drainLoop, h0, ha]
          · simp [drainLoop, h0, hb]
            omega
          · simp only [drainLoop, h0]
            simp only [hc]
            rw [List.range_succ_eq_map, List.map_cons, List.map_map]
            have htail : (List.range k2).map (fun j => reply (i + 1 + j)) =
                (List.range k2).map ((fun j => reply (i + j)) ∘ Nat.succ) := by
              apply List.map_congr_left
              intro j hj
              have harith : i + 1 + j = i + (j + 1) := by omega
              simp [Function.comp, harith]
            rw [htail]
            simp

/-! ## Claims -/

/-- Claim C1: for every conversationId, processMessage admits at most 15
requests within a fixed 60-second window — the first request of a window
sets count = 1 and resetAt = now + 60 s, and no admitted request pushes
the stored count past 15 — and any request beyond the 15th in the same
window throws the rate-limit error to the caller before any idempotency
lookup, circuit-breaker check, or upstream call is made: the state is
returned unchanged and the outcome is the thrown error for every
upstream oracle, never a fallback response. -/
theorem claim_rate_limit_window (st : ServiceState) (t0 t1 : Nat)
    (cid msg : String) (ctx : List ChatMessage) (key : Option String)
    (oracle : Nat → AttemptOutcome) (jitter : Nat → Nat) :
    (mapLookup st.rateLimitMap cid = none →
      checkRateLimit st t0 cid =
        (true, { st with
          rateLimitMap := mapInsert st.rateLimitMap cid ⟨1, t0 + 60000⟩ })) ∧
    (∀ st2, checkRateLimit st t0 cid = (true, st2) →
      ∀ l2, mapLookup st2.rateLimitMap cid = some l2 → l2.count ≤ 15) ∧
    (∀ l, mapLookup st.rateLimitMap cid = some l → t0 ≤ l.resetTime →
      l.count ≥ 15 →
      processMessage t0 t1 oracle jitter ⟨cid, msg, ctx, key⟩ st =
        (.error rateLimitErrorText, st)) := by
  refine ⟨checkRateLimit_fresh st t0 cid,
    fun st2 h => checkRateLimit_count_cap st t0 cid st2 h, ?_⟩
  intro l hl hwin hcount
  exact processMessage_rateLimited t0 t1 oracle jitter ⟨cid, msg, ctx, key⟩ st
    l hl hwin hcount

/-- Witness for C1: a conversation whose window already holds 15 requests
has its 16th request rejected with the rate-limit error, state untouched. -/
theorem claim_rate_limit_window_witness :
    processMessage 2000 3000 (fun _ => .ok (some "hi") none) (fun _ => 0)
      ⟨"c", "m", [], none⟩ ⟨[], [("c", ⟨15, 61000⟩)], []⟩ =
      (.error rateLimitErrorText, ⟨[], [("c", ⟨15, 61000⟩)], []⟩) :=
  (claim_rate_limit_window ⟨[], [("c", ⟨15, 61000⟩)], []⟩ 2000 3000 "c" "m"
      [] none (fun _ => .ok (some "hi") none) (fun _ => 0)).2.2
    ⟨15, 61000⟩ (by decide) (by decide) (by decide)

/-- Claim C2: processMessage never lets an upstream failure escape as an
exception — whenever the rate-limit check passes it returns a response
object (even when every upstream attempt fails), the exhausted-failure
response has success = true, metadata.model = "fallback" and
metadata.error holding the failure reason, and the rate-limit rejection
is the only condition raised to the caller. -/
theorem claim_upstream_failure_never_escapes (t0 t1 : Nat)
    (oracle : Nat → AttemptOutcome) (jitter : Nat → Nat)
    (input : MessageInput) (st : ServiceState) :
    ((checkRateLimit st t0 input.conversationId).1 = true →
      ((processMessage t0 t1 oracle jitter input st).1).isOk = true) ∧
    (∀ err st2,
      processMessage t0 t1 oracle jitter input st = (.error err, st2) →
      err = rateLimitErrorText ∧
      (checkRateLimit st t0 input.conversationId).1 = false) ∧
    (∀ st1 e1 e2 e3,
      checkRateLimit st t0 input.conversationId = (true, st1) →
      (∀ key, input.idempotencyKey = some key →
        ∀ e, mapLookup st.requestCache key = some e → e.expiresAt ≤ t0) →
      (∀ b, mapLookup st.circuitBreaker "ai-api" = some b →
        b.isOpen = false ∨ t0 - b.lastFailure > 30000) →
      attemptEval input.message (oracle 1) = .error e1 →
      attemptEval input.message (oracle 2) = .error e2 →
      attemptEval input.message (oracle 3) = .error e3 →
      ∃ r, (processMessage t0 t1 oracle jitter input st).1 = .ok r ∧
        r.success = true ∧ r.metadata.model = "fallback" ∧
        r.metadata.error = some e3) := by
  refine ⟨?_, ?_, ?_⟩
  · intro h
    obtain ⟨st1, hrlt⟩ :
        ∃ st1, checkRateLimit st t0 input.conversationId = (true, st1) :=
      ⟨_, by rw [← h]⟩
    exact processMessage_isOk_of_pass t0 t1 oracle jitter input st st1 hrlt
  · intro err st2 hres
    by_cases hrl : (checkRateLimit st t0 input.conversationId).1 = false
    · rw [processMessage_rateLimited_of_false t0 t1 oracle jitter input st hrl]
        at hres
      simp only [Prod.mk.injEq, Except.error.injEq] at hres
      exact ⟨hres.1.symm, hrl⟩
    · have hb1 : (checkRateLimit st t0 input.conversationId).1 = true := by
        cases h : (checkRateLimit st t0 input.conversationId).1
        · exact absurd h hrl
        · rfl
      obtain ⟨st1, hrlt⟩ :
          ∃ st1, checkRateLimit st t0 input.conversationId = (true, st1) :=
        ⟨_, by rw [← hb1]⟩
      have hok := processMessage_isOk_of_pass t0 t1 oracle jitter input st st1 hrlt
      rw [hres] at hok
      simp [Except.isOk, Except.toBool] at hok
  · intro st1 e1 e2 e3 hrl hmiss hcb h1 h2 h3
    exact ⟨_, processMessage_exhausted_run t0 t1 oracle jitter input st st1
      e1 e2 e3 hrl hmiss hcb h1 h2 h3, rfl, rfl, rfl⟩

/-- Witness for C2: upstream throwing on all three attempts still yields
a returned response with success = true, model = "fallback" and the
failure reason in metadata.error. -/
theorem claim_upstream_failure_never_escapes_witness :
    ∃ r, (processMessage 0 5 (fun _ => .thrown "boom") (fun _ => 0)
        ⟨"c", "m", [], none⟩ ServiceState.empty).1 = .ok r ∧
      r.success = true ∧ r.metadata.model = "fallback" ∧
      r.metadata.error = some "boom" :=
  (claim_upstream_failure_never_escapes 0 5 (fun _ => .thrown "boom")
      (fun _ => 0) ⟨"c", "m", [], none⟩ ServiceState.empty).2.2
    ⟨[], [("c", ⟨1, 60000⟩)], []⟩ "boom" "boom" "boom"
    (by decide) (fun key hk => nomatch hk) (fun b hb => nomatch hb)
    (by decide) (by decide) (by decide)

/-- Claim C10: an HTTP-ok upstream body whose completion field is the
empty string is treated exactly like one whose completion field is
absent — both raise the missing-completion error, a retryable failure —
and consequently every value callAIWithRetry resolves with carries a
non-empty completion string. -/
theorem claim_empty_completion_rejected :
    (∀ message tokensUsed,
        attemptEval message (.ok (some "") tokensUsed) =
          .error "Invalid AI API response: missing completion" ∧
        attemptEval message (.ok none tokensUsed) =
          .error "Invalid AI API response: missing completion") ∧
    (∀ message oracle jitter maxRetries d,
        (callAIWithRetry message oracle jitter maxRetries).result = .ok d →
        ¬ d.completion = "") := by
  constructor
  · intro message tokensUsed
    exact ⟨rfl, rfl⟩
  · intro message oracle jitter maxRetries d h
    obtain ⟨i, hi⟩ := callAIWithRetryAux_ok message oracle jitter maxRetries 1 d h
    exact (attemptEval_ok_shape message (oracle i) d hi).1

/-- Witness for C10: a run that resolves with completion "pong" indeed
has a non-empty completion. -/
theorem claim_empty_completion_rejected_witness :
    ¬ (AIResult.mk "pong" "claude-3-5-sonnet" 1).completion = "" :=
  claim_empty_completion_rejected.2 "m" (fun _ => .ok (some "pong") none)
    (fun _ => 0) 3 ⟨"pong", "claude-3-5-sonnet", 1⟩ (by decide)

/-- Claim C3: with an idempotency key and a live (non-expired) cache
entry, the stored response is returned verbatim — breaker state and the
cache itself untouched, and the outcome independent of the upstream
oracle — and a second call with the same key while the entry is still
live returns the byte-identical response; once the TTL has elapsed the
entry is evicted (treated as absent) and the call performs a fresh
upstream attempt. -/
theorem claim_idempotency_cache (t0 t1 t0b t1b : Nat)
    (oracle oracle2 : Nat → AttemptOutcome) (jitter jitter2 : Nat → Nat)
    (input : MessageInput) (st st1 : ServiceState) (key : String)
    (e : CacheEntry)
    (hrl : checkRateLimit st t0 input.conversationId = (true, st1))
    (hkey : input.idempotencyKey = some key)
    (he : mapLookup st.requestCache key = some e) :
    (e.expiresAt > t0 →
      processMessage t0 t1 oracle jitter input st = (.ok e.data, st1) ∧
      st1.requestCache = st.requestCache ∧
      st1.circuitBreaker = st.circuitBreaker ∧
      (∀ st1b, checkRateLimit st1 t0b input.conversationId = (true, st1b) →
        e.expiresAt > t0b →
        (processMessage t0b t1b oracle2 jitter2 input st1).1 = .ok e.data)) ∧
    (e.expiresAt ≤ t0 →
      checkIdempotency st1 t0 key =
        (none, { st1 with requestCache := mapErase st1.requestCache key }) ∧
      (∀ d, (∀ b, mapLookup st.circuitBreaker "ai-api" = some b →
          b.isOpen = false ∨ t0 - b.lastFailure > 30000) →
        attemptEval input.message (oracle 1) = .ok d →
        (processMessage t0 t1 oracle jitter input st).1 =
          .ok (successResponse t0 t1 input d))) := by
  have hcache : st1.requestCache = st.requestCache := by
    have hx := checkRateLimit_requestCache st t0 input.conversationId
    rw [hrl] at hx
    exact hx
  constructor
  · intro hlive
    refine ⟨processMessage_cached t0 t1 oracle jitter input st st1 key e hrl
      hkey he hlive, hcache, breaker_after_rateLimit t0 input st st1 hrl, ?_⟩
    intro st1b hrl2 hlive2
    rw [processMessage_cached t0b t1b oracle2 jitter2 input st1 st1b key e hrl2
      hkey (by rw [hcache]; exact he) hlive2]
  · intro hexp
    have hmiss : ∀ key2, input.idempotencyKey = some key2 →
        ∀ e2, mapLookup st.requestCache key2 = some e2 → e2.expiresAt ≤ t0 := by
      intro key2 hk2 e2 he2
      rw [hkey] at hk2
      cases hk2
      rw [he] at he2
      cases he2
      exact hexp
    refine ⟨checkIdempotency_expired st1 t0 key e
      (by rw [hcache]; exact he) hexp, ?_⟩
    intro d hcb hd
    obtain ⟨st2, heq, -, -⟩ := processMessage_success_run t0 t1 oracle jitter
      input st st1 d hrl hmiss hcb hd
    rw [heq]

/-- Witness for C3: a live cached entry is replayed verbatim even though
the oracle would throw. -/
theorem claim_idempotency_cache_witness :
    processMessage 50 60 (fun _ => .thrown "x") (fun _ => 0)
      ⟨"c", "m", [], some "k"⟩
      ⟨[("k", ⟨sampleResponse, 100⟩)], [], []⟩ =
      (.ok sampleResponse,
       ⟨[("k", ⟨sampleResponse, 100⟩)], [("c", ⟨1, 60050⟩)], []⟩) :=
  ((claim_idempotency_cache 50 60 0 0 (fun _ => .thrown "x")
      (fun _ => .thrown "x") (fun _ => 0) (fun _ => 0)
      ⟨"c", "m", [], some "k"⟩
      ⟨[("k", ⟨sampleResponse, 100⟩)], [], []⟩
      ⟨[("k", ⟨sampleResponse, 100⟩)], [("c", ⟨1, 60050⟩)], []⟩
      "k" ⟨sampleResponse, 100⟩
      (by decide) (by decide) (by decide)).1 (by decide)).1

/-- Claim C5: when the upstream completion fails on every attempt,
callAIWithRetry performs exactly 3 attempts, sleeping
2^(attempt-1)·1000 ms plus a jitter in [0, 500) between consecutive
attempts (so the two waits lie in [1000, 1500) and [2000, 2500), with
the first strictly below the second), raises the last error, and
processMessage recovers it into the fallback response rather than a
crash. -/
theorem claim_retry_budget_backoff (t0 t1 : Nat)
    (oracle : Nat → AttemptOutcome) (jitter : Nat → Nat)
    (input : MessageInput) (st st1 : ServiceState) (e1 e2 e3 : String)
    (h1 : attemptEval input.message (oracle 1) = .error e1)
    (h2 : attemptEval input.message (oracle 2) = .error e2)
    (h3 : attemptEval input.message (oracle 3) = .error e3)
    (hjit : ∀ i, jitter i < 500)
    (hrl : checkRateLimit st t0 input.conversationId = (true, st1))
    (hmiss : ∀ key, input.idempotencyKey = some key →
       ∀ e, mapLookup st.requestCache key = some e → e.expiresAt ≤ t0)
    (hcb : ∀ b, mapLookup st.circuitBreaker "ai-api" = some b →
       b.isOpen = false ∨ t0 - b.lastFailure > 30000) :
    callAIWithRetry input.message oracle jitter 3 =
      ⟨.error e3, 3, [1000 + jitter 1, 2000 + jitter 2]⟩ ∧
    1000 ≤ 1000 + jitter 1 ∧ 1000 + jitter 1 < 1500 ∧
    2000 ≤ 2000 + jitter 2 ∧ 2000 + jitter 2 < 2500 ∧
    1000 + jitter 1 < 2000 + jitter 2 ∧
    (processMessage t0 t1 oracle jitter input st).1 =
      .ok (createFallbackResponse t1 input.message input.conversationId e3
             (some (t1 - t0))) := by
  have hj1 := hjit 1
  have hj2 := hjit 2
  refine ⟨callAIWithRetry_three_failures input.message oracle jitter e1 e2 e3
      h1 h2 h3, by omega, by omega, by omega, by omega, by omega,
    processMessage_exhausted_run t0 t1 oracle jitter input st st1 e1 e2 e3
      hrl hmiss hcb h1 h2 h3⟩

/-- Witness for C5: with jitter 7 and an upstream that throws "boom" on
every attempt, the run makes 3 attempts with delays 1007 and 2007 ms and
the call falls back. -/
theorem claim_retry_budget_backoff_witness :
    callAIWithRetry "m" (fun _ => .thrown "boom") (fun _ => 7) 3 =
      ⟨.error "boom", 3, [1000 + 7, 2000 + 7]⟩ ∧
    (processMessage 0 5 (fun _ => .thrown "boom") (fun _ => 7)
        ⟨"c", "m", [], none⟩ ServiceState.empty).1 =
      .ok (createFallbackResponse 5 "m" "c" "boom" (some (5 - 0))) := by
  have h := claim_retry_budget_backoff 0 5 (fun _ => .thrown "boom")
    (fun _ => 7) ⟨"c", "m", [], none⟩ ServiceState.empty
    ⟨[], [("c", ⟨1, 60000⟩)], []⟩ "boom" "boom" "boom"
    (by decide) (by decide) (by decide) (fun i => by norm_num)
    (by decide) (fun key hk => nomatch hk) (fun b hb => nomatch hb)
  exact ⟨h.1, h.2.2.2.2.2.2⟩

/-- Claim C8: a call passing rate limiting with a closed (or cooled-down)
breaker and no live idempotency entry, whose first upstream attempt
succeeds with a non-empty completion string, returns success = true,
message.content equal to the upstream completion, message.role
"assistant", metadata.model the live model id "claude-3-5-sonnet" (not
"fallback"), metadata.cached = false; the breaker entry ends with
failures reset and isOpen cleared; and a supplied idempotency key maps
to the response with a 24-hour TTL. -/
theorem claim_success_path (t0 t1 : Nat) (oracle : Nat → AttemptOutcome)
    (jitter : Nat → Nat) (input : MessageInput) (st st1 : ServiceState)
    (c : String) (tu : Option Nat)
    (hrl : checkRateLimit st t0 input.conversationId = (true, st1))
    (hmiss : ∀ key, input.idempotencyKey = some key →
       ∀ e, mapLookup st.requestCache key = some e → e.expiresAt ≤ t0)
    (hcb : ∀ b, mapLookup st.circuitBreaker "ai-api" = some b →
       b.isOpen = false ∨ t0 - b.lastFailure > 30000)
    (hor : oracle 1 = .ok (some c) tu) (hc : ¬ c = "") :
    ∃ r st2, processMessage t0 t1 oracle jitter input st = (.ok r, st2) ∧
      r.success = true ∧ r.message.role = "assistant" ∧
      r.message.content = c ∧
      r.metadata.model = "claude-3-5-sonnet" ∧
      r.metadata.cached = false ∧
      (∃ lf, mapLookup st2.circuitBreaker "ai-api" = some ⟨0, lf, false⟩) ∧
      (∀ key, input.idempotencyKey = some key →
         mapLookup st2.requestCache key = some ⟨r, t1 + 86400000⟩) := by
  have hd : attemptEval input.message (oracle 1) =
      .ok ⟨c, "claude-3-5-sonnet",
           jsOrNat tu ((input.message.length + 3) / 4)⟩ := by
    rw [hor]
    simp [attemptEval, hc]
  obtain ⟨st2, heq, hbr, hcw⟩ := processMessage_success_run t0 t1 oracle jitter
    input st st1 _ hrl hmiss hcb hd
  refine ⟨_, st2, heq, rfl, rfl, ?_, ?_, rfl, hbr, hcw⟩
  · simp [successResponse, hc]
  · simp [successResponse]

/-- Witness for C8: upstream returning completion "hi there" on a fresh
state with an idempotency key yields the live-model success response and
caches it for 24 hours. -/
theorem claim_success_path_witness :
    ∃ r st2, processMessage 0 5 (fun _ => .ok (some "hi there") none)
        (fun _ => 0) ⟨"c", "hello", [], some "ik"⟩ ServiceState.empty =
        (.ok r, st2) ∧
      r.success = true ∧ r.message.role = "assistant" ∧
      r.message.content = "hi there" ∧
      r.metadata.model = "claude-3-5-sonnet" ∧
      r.metadata.cached = false ∧
      (∃ lf, mapLookup st2.circuitBreaker "ai-api" = some ⟨0, lf, false⟩) ∧
      (∀ key, (some "ik" : Option String) = some key →
         mapLookup st2.requestCache key = some ⟨r, 5 + 86400000⟩) :=
  claim_success_path 0 5 (fun _ => .ok (some "hi there") none) (fun _ => 0)
    ⟨"c", "hello", [], some "ik"⟩ ServiceState.empty
    ⟨[], [("c", ⟨1, 60000⟩)], []⟩ "hi there" none
    (by decide)
    (fun key hk => by cases hk; intro e he; nomatch he)
    (fun b hb => nomatch hb)
    (by decide) (by decide)

set_option maxRecDepth 10000 in
/-- Counterexample to claim C4 as stated: the claim says the breaker
auto-clears "once 30 seconds have elapsed since lastFailureAt".  With
the breaker open after 3 failures at lastFailureAt = 1000, at
now = 31000 exactly 30 seconds have elapsed, yet the check still reports
the breaker open with its state unchanged, and processMessage returns
the breaker-open fallback without attempting the upstream call even
though the upstream oracle would succeed: the code clears only strictly
after the 30 s cooldown (`now - lastFailure > 30000`). -/
theorem claim_breaker_cooldown_counterexample :
    checkCircuitBreaker ⟨[], [], [("ai-api", ⟨3, 1000, true⟩)]⟩ 31000
        "ai-api" =
      (false, ⟨[], [], [("ai-api", ⟨3, 1000, true⟩)]⟩) ∧
    (processMessage 31000 31005 (fun _ => .ok (some "hi") none) (fun _ => 0)
        ⟨"c", "m", [], none⟩ ⟨[], [], [("ai-api", ⟨3, 1000, true⟩)]⟩).1 =
      .ok (createFallbackResponse 31000 "m" "c" "Circuit breaker open"
             none) := by
  constructor
  · decide
  · decide

/-- Claim C4 (amended): the breaker invariant "isOpen only with
failureCount ≥ 3" is preserved by processMessage; while isOpen and **at
most** 30 seconds have elapsed since lastFailureAt, processMessage
returns the synthesized fallback (success = true, model = "fallback")
without attempting the upstream call, breaker state untouched; once
**strictly more than** 30 seconds have elapsed, the breaker auto-clears
(isOpen = false, failures = 0) regardless of any intervening success,
and the next call attempts upstream again. -/
theorem claim_breaker_cooldown_amended (t0 t1 : Nat)
    (oracle : Nat → AttemptOutcome) (jitter : Nat → Nat)
    (input : MessageInput) (st st1 : ServiceState) (b : BreakerState) :
    (BreakerInv st →
      BreakerInv (processMessage t0 t1 oracle jitter input st).2) ∧
    (mapLookup st.circuitBreaker "ai-api" = some b → b.isOpen = true →
     t0 - b.lastFailure ≤ 30000 →
     checkRateLimit st t0 input.conversationId = (true, st1) →
     (∀ key, input.idempotencyKey = some key →
        ∀ e, mapLookup st.requestCache key = some e → e.expiresAt ≤ t0) →
     ∃ st2, processMessage t0 t1 oracle jitter input st =
         (.ok (createFallbackResponse t0 input.message input.conversationId
                 "Circuit breaker open" none), st2) ∧
       (createFallbackResponse t0 input.message input.conversationId
          "Circuit breaker open" none).success = true ∧
       (createFallbackResponse t0 input.message input.conversationId
          "Circuit breaker open" none).metadata.model = "fallback" ∧
       st2.circuitBreaker = st.circuitBreaker) ∧
    (mapLookup st.circuitBreaker "ai-api" = some b → b.isOpen = true →
     t0 - b.lastFailure > 30000 →
     checkCircuitBreaker st t0 "ai-api" =
       (true, { st with
         circuitBreaker := mapInsert st.circuitBreaker "ai-api"
                             { b with isOpen := false, failures := 0 } }) ∧
     (checkRateLimit st t0 input.conversationId = (true, st1) →
      (∀ key, input.idempotencyKey = some key →
         ∀ e, mapLookup st.requestCache key = some e → e.expiresAt ≤ t0) →
      ∀ d, attemptEval input.message (oracle 1) = .ok d →
        (processMessage t0 t1 oracle jitter input st).1 =
          .ok (successResponse t0 t1 input d))) := by
  refine ⟨processMessage_preserves_inv t0 t1 oracle jitter input st, ?_, ?_⟩
  · intro hb hopen hcool hrl hmiss
    obtain ⟨st2, heq, hbr⟩ := processMessage_breaker_open_run t0 t1 oracle
      jitter input st st1 b hrl hmiss hb hopen hcool
    exact ⟨st2, heq, rfl, rfl, hbr⟩
  · intro hb hopen hcool
    refine ⟨checkCircuitBreaker_open_elapsed st t0 "ai-api" b hb hopen hcool,
      ?_⟩
    intro hrl hmiss d hd
    have hcb : ∀ b2, mapLookup st.circuitBreaker "ai-api" = some b2 →
        b2.isOpen = false ∨ t0 - b2.lastFailure > 30000 := by
      intro b2 hb2
      rw [hb] at hb2
      cases hb2
      exact Or.inr hcool
    obtain ⟨st2, heq, -, -⟩ := processMessage_success_run t0 t1 oracle jitter
      input st st1 d hrl hmiss hcb hd
    rw [heq]

/-- Witness for the amended C4: at 30 001 ms past the last failure the
breaker clears and the next call reaches upstream, returning the live
success response. -/
theorem claim_breaker_cooldown_amended_witness :
    checkCircuitBreaker ⟨[], [], [("ai-api", ⟨3, 1000, true⟩)]⟩ 31001
        "ai-api" =
      (true, { ServiceState.mk [] [] [("ai-api", ⟨3, 1000, true⟩)] with
        circuitBreaker := mapInsert [("ai-api", ⟨3, 1000, true⟩)] "ai-api"
                            ⟨0, 1000, false⟩ }) ∧
    (processMessage 31001 31005 (fun _ => .ok (some "hi") none) (fun _ => 0)
        ⟨"c", "m", [], none⟩ ⟨[], [], [("ai-api", ⟨3, 1000, true⟩)]⟩).1 =
      .ok (successResponse 31001 31005 ⟨"c", "m", [], none⟩
             ⟨"hi", "claude-3-5-sonnet", 1⟩) := by
  have h := (claim_breaker_cooldown_amended 31001 31005
    (fun _ => .ok (some "hi") none) (fun _ => 0) ⟨"c", "m", [], none⟩
    ⟨[], [], [("ai-api", ⟨3, 1000, true⟩)]⟩
    ⟨[], [("c", ⟨1, 91001⟩)], [("ai-api", ⟨3, 1000, true⟩)]⟩
    ⟨3, 1000, true⟩).2.2 (by decide) (by decide) (by decide)
  exact ⟨h.1, h.2 (by decide) (fun key hk => nomatch hk)
    ⟨"hi", "claude-3-5-sonnet", 1⟩ (by decide)⟩

/-- Claim C9: every response processMessage returns — freshly computed,
synthesized as a fallback, or served verbatim from the idempotency
cache — carries metadata.cached = false, given that every cache entry
stores a response with that flag; and processMessage itself maintains
that cache property, so the cached = true mark is never set on any
returned response. -/
theorem claim_cached_flag_never_true (t0 t1 : Nat)
    (oracle : Nat → AttemptOutcome) (jitter : Nat → Nat)
    (input : MessageInput) (st : ServiceState) (hInv : CacheFlagInv st) :
    (∀ r, (processMessage t0 t1 oracle jitter input st).1 = .ok r →
       r.metadata.cached = false) ∧
    CacheFlagInv (processMessage t0 t1 oracle jitter input st).2 :=
  processMessage_cacheInv t0 t1 oracle jitter input st hInv

/-- Witness for C9: a replayed idempotent response carries
cached = false, indistinguishable from a fresh one by that flag. -/
theorem claim_cached_flag_never_true_witness :
    sampleResponse.metadata.cached = false :=
  (claim_cached_flag_never_true 50 60 (fun _ => .thrown "x") (fun _ => 0)
      ⟨"c", "m", [], some "k"⟩ ⟨[("k", ⟨sampleResponse, 100⟩)], [], []⟩
      (by
        intro k e he
        rw [mapLookup_cons] at he
        by_cases hk : ("k" : String) = k
        · rw [if_pos hk] at he
          cases he
          rfl
        · rw [if_neg hk] at he
          nomatch he)).1
    sampleResponse (by decide)

/-- Claim C6: draining the offline queue submits the queued messages in
FIFO (enqueue) order, each under idempotency key
"offline-<original timestamp>"; on the first thrown failure (position k,
after k confirmed deliveries) processing halts at once, exactly the k
confirmed-delivered entries are removed, every not-yet-delivered entry
stays in the persisted queue in original order, and a whole-drain retry
is scheduled after the fixed 5000 ms delay. -/
theorem claim_offline_drain_fifo (st : ChatState) (nowMs : Nat)
    (outcome : Nat → Except String ServerReply) (reply : Nat → Msg)
    (k : Nat) (e : String)
    (honline : st.connectionStatus = ConnStatus.online)
    (hsucc : ∀ j, j < k → outcome j = .ok ⟨true, reply j⟩)
    (hfail : outcome k = .error e)
    (hk : k < st.offlineQueue.length) :
    (processOfflineQueue st nowMs outcome).1.submitted =
      (st.offlineQueue.take (k + 1)).map
        (fun m => ⟨m.content, "offline-" ++ toString m.timestamp⟩) ∧
    (processOfflineQueue st nowMs outcome).1.remainingQueue =
      st.offlineQueue.drop k ∧
    (processOfflineQueue st nowMs outcome).1.newMessages =
      (List.range k).map reply ∧
    (processOfflineQueue st nowMs outcome).1.retryDelayMs = some 5000 ∧
    (processOfflineQueue st nowMs outcome).2.offlineQueue =
      st.offlineQueue.drop k := by
  have hq : ¬ st.offlineQueue = [] := by
    intro h
    rw [h] at hk
    simp at hk
  obtain ⟨ha, hb, hc⟩ := drainLoop_halt outcome reply e st.offlineQueue 0 k
    (fun j hj => by simpa using hsucc j hj) (by simpa using hfail) hk
  have hlen : (drainLoop outcome st.offlineQueue 0).2.1.length / 2 = k := by
    rw [hb]
    omega
  have hdroplen : 0 < (st.offlineQueue.drop k).length := by
    rw [List.length_drop]
    omega
  refine ⟨?_, ?_, ?_, ?_, ?_⟩ <;>
    simp [processOfflineQueue, honline, hq, hlen, ha, hc, hdroplen] <;>
    omega

/-- Witness for C6: with a two-message queue where the first delivery is
confirmed and the second throws, only the first entry is removed, the
second stays queued, and a 5-second retry is scheduled. -/
theorem claim_offline_drain_fifo_witness :
    (processOfflineQueue
        ⟨some "c", [], false, false, "", ConnStatus.online,
          [⟨"user", "a", 1⟩, ⟨"user", "b", 2⟩]⟩ 9
        (fun i => if i = 0 then .ok ⟨true, ⟨"assistant", "ra", 3⟩⟩
                  else .error "boom")).1.submitted =
      [⟨"a", "offline-1"⟩, ⟨"b", "offline-2"⟩] ∧
    (processOfflineQueue
        ⟨some "c", [], false, false, "", ConnStatus.online,
          [⟨"user", "a", 1⟩, ⟨"user", "b", 2⟩]⟩ 9
        (fun i => if i = 0 then .ok ⟨true, ⟨"assistant", "ra", 3⟩⟩
                  else .error "boom")).1.remainingQueue =
      [⟨"user", "b", 2⟩] ∧
    (processOfflineQueue
        ⟨some "c", [], false, false, "", ConnStatus.online,
          [⟨"user", "a", 1⟩, ⟨"user", "b", 2⟩]⟩ 9
        (fun i => if i = 0 then .ok ⟨true, ⟨"assistant", "ra", 3⟩⟩
                  else .error "boom")).1.retryDelayMs = some 5000 := by
  have h := claim_offline_drain_fifo
    ⟨some "c", [], false, false, "", ConnStatus.online,
      [⟨"user", "a", 1⟩, ⟨"user", "b", 2⟩]⟩ 9
    (fun i => if i = 0 then .ok ⟨true, ⟨"assistant", "ra", 3⟩⟩
              else .error "boom")
    (fun i => if i = 0 then ⟨"assistant", "ra", 3⟩ else ⟨"", "", 0⟩)
    1 "boom" rfl
    (fun j hj => by
      interval_cases j
      decide)
    (by decide) (by decide)
  refine ⟨h.1.trans (by decide), h.2.1.trans (by decide), h.2.2.2.1⟩

/-- Claim C7: a sendMessage invocation that was not queued offline and
whose server call fails for a non-network reason restores the visible
message list exactly (the optimistic user message removed, nothing else
changed — queue and connection status untouched), clears the streaming
buffer and flag, and re-raises a friendlier error distinguishing
rate-limit from generic causes; a network failure instead keeps the
message visible, pushes it onto the offline queue, and sets the
connection status to offline. -/
theorem claim_send_rollback_or_queue (st : ChatState) (content : String)
    (nowMs : Nat) (errMsg : String)
    (htrim : ¬ jsTrim content = "") (hsend : st.isSending = false)
    (hconn : ¬ st.connectionStatus = ConnStatus.offline) :
    (jsIncludes errMsg "Failed to fetch" = false →
     jsIncludes errMsg "Network request failed" = false →
     (sendMessage st content nowMs (.error errMsg)).2.messages =
       st.messages ∧
     (sendMessage st content nowMs (.error errMsg)).2.streamingMessage =
       "" ∧
     (sendMessage st content nowMs (.error errMsg)).2.isStreaming = false ∧
     (sendMessage st content nowMs (.error errMsg)).2.offlineQueue =
       st.offlineQueue ∧
     (sendMessage st content nowMs (.error errMsg)).2.connectionStatus =
       st.connectionStatus ∧
     (sendMessage st content nowMs (.error errMsg)).1 =
       .raised (if jsIncludes errMsg "Rate limit" then
                  "Please wait a moment before sending another message."
                else "Failed to send message: " ++ errMsg)) ∧
    (jsIncludes errMsg "Failed to fetch" = true ∨
       jsIncludes errMsg "Network request failed" = true →
     (sendMessage st content nowMs (.error errMsg)).2.messages =
       st.messages ++ [⟨"user", jsTrim content, nowMs⟩] ∧
     (sendMessage st content nowMs (.error errMsg)).2.offlineQueue =
       st.offlineQueue ++ [⟨"user", jsTrim content, nowMs⟩] ∧
     (sendMessage st content nowMs (.error errMsg)).2.connectionStatus =
       ConnStatus.offline ∧
     (sendMessage st content nowMs (.error errMsg)).1 =
       .raised "Connection lost. Your message has been saved and will be sent when connection is restored.") := by
  constructor
  · intro hn1 hn2
    refine ⟨?_, ?_, ?_, ?_, ?_, ?_⟩ <;>
      simp [sendMessage, htrim, hsend, hconn, hn1, hn2,
        List.dropLast_concat]
  · intro hn
    have hne : (jsIncludes errMsg "Failed to fetch" ||
        jsIncludes errMsg "Network request failed") = true := by
      rcases hn with h | h <;> simp [h]
    refine ⟨?_, ?_, ?_, ?_⟩ <;>
      simp [sendMessage, htrim, hsend, hconn, hne]

/-- Witness for C7: the server-side rate-limit rejection rolls the
message list back to exactly its pre-send state and re-raises the
friendlier rate-limit message. -/
theorem claim_send_rollback_or_queue_witness :
    (sendMessage
        ⟨some "c", [⟨"user", "a", 1⟩], false, false, "",
          ConnStatus.online, []⟩ " hi " 5
        (.error "Rate limit exceeded. Please wait before sending another message.")).2.messages =
      [⟨"user", "a", 1⟩] ∧
    (sendMessage
        ⟨some "c", [⟨"user", "a", 1⟩], false, false, "",
          ConnStatus.online, []⟩ " hi " 5
        (.error "Rate limit exceeded. Please wait before sending another message.")).1 =
      .raised "Please wait a moment before sending another message." := by
  have h := (claim_send_rollback_or_queue
    ⟨some "c", [⟨"user", "a", 1⟩], false, false, "",
      ConnStatus.online, []⟩ " hi " 5
    "Rate limit exceeded. Please wait before sending another message."
    (by decide) rfl (by decide)).1 (by decide) (by decide)
  exact ⟨h.1, h.2.2.2.2.2.trans (by decide)⟩

end LivingLoom
